import Mathlib

/-!
# Verification of the mISDN ISAC D-channel driver core (isac.c)

A shallow embedding of the interrupt-driven protocol engine of
`drivers/isdn/hardware/mISDN/isac.c`.  Pure data flow is translated into
total functions over an explicit channel-context state `DCh`; every
hardware side effect (register write, FIFO burst, timer manipulation,
scheduled event, upstream message, buffer release) is recorded in an
output trace of `HwOp` operations.  Hardware register reads and
allocation outcomes are supplied as explicit inputs (`HwIn`, `TimerIn`),
so each C function becomes a function `inputs → state → state × trace`.

Numeric constants that live in headers not present in the source tree
(`isac.h`, `hisax_dch.h`, `hisaxl1.h`) are modelled from the spec; each
such definition carries a doc comment starting `Modelled from the spec:`.
-/

namespace MISDNIsac

/-- Chip registers touched by the embedded code paths.  The register
*addresses* live in the missing `isac.h` header; only their identity
matters for the properties, so registers are an enumeration. -/
inductive Reg where
  | CMDR | RSTA | RBCL | CIR0 | CIR1 | CIX0 | EXIR | MOSR
  | MOR0 | MOR1 | MOCR | MOX0 | MOX1 | RBCH | STAR | SPCR | ADF1
  deriving DecidableEq, Repr

/-- Deferred-event tags set by `dchannel_sched_event` and consumed by the
bottom half. -/
inductive Event where
  | D_RCVBUFREADY | D_XMTBUFREADY | D_L1STATECHANGE | D_CLEARBUSY
  | D_RX_MON0 | D_RX_MON1 | D_TX_MON0 | D_TX_MON1
  deriving DecidableEq, Repr

/-- Upstream primitive tags (`PH_SIGNAL|INDICATION` etc.); the numeric
encodings live in the missing `hisaxl1.h` header and are immaterial. -/
inductive UpPrim where
  | phSignalInd | phControlInd | phControlCnf | phDataCnf
  deriving DecidableEq, Repr

/-- Upstream parameter tags (`HW_RESET`, `INFO2`, ...); numeric encodings
are in the missing headers and immaterial. -/
inductive UpPara where
  | hwReset | hwDeactivate | hwPowerup | anySignal
  | info2 | info4p8 | info4p10 | dinfoSkb
  deriving DecidableEq, Repr

/-- One observable action of the driver: the trace alphabet. -/
inductive HwOp where
  | readReg (r : Reg)
  | writeReg (r : Reg) (v : Nat)
  | readFifo (count : Nat)
  | writeFifo (data : List Nat)
  | lockHw
  | unlockHw
  | delTimer
  | addTimer
  | kfreeSkb (data : List Nat)
  | sched (e : Event)
  | upMsg (p : UpPrim) (a : UpPara)
  | arcofiFsm (rxEnd : Bool)
  | logWarn
  deriving DecidableEq, Repr

/-- Modelled from the spec: `MAX_DFRAME_LEN_L1` of the missing
`hisax_dch.h` header, the maximum D-channel frame size; the properties
only use that it is a fixed positive bound. -/
def MAX_DFRAME_LEN_L1 : Nat := 300

/-- Modelled from the spec: `MAX_MON_FRAME` of the missing header, the
bounded capacity of a monitor receive buffer. -/
def MAX_MON_FRAME : Nat := 32

/-- Modelled from the spec: `ISAC_RBCH_XAC` of the missing `isac.h`
header, the "receiver still active" bit of the RBCH register. -/
def ISAC_RBCH_XAC : Nat := 0x80

/-- Modelled from the spec: C/I indication code for reset indication
(`ISAC_IND_RS`, missing `isac.h`). -/
def ISAC_IND_RS : Nat := 0x1

/-- Modelled from the spec: C/I indication code for error indication
(`ISAC_IND_EI`, missing `isac.h`). -/
def ISAC_IND_EI : Nat := 0x6

/-- Modelled from the spec: C/I indication code for deactivation confirm
(`ISAC_IND_DID`, missing `isac.h`). -/
def ISAC_IND_DID : Nat := 0xF

/-- Modelled from the spec: C/I indication code for deactivation
indication (`ISAC_IND_DR`, missing `isac.h`). -/
def ISAC_IND_DR : Nat := 0x0

/-- Modelled from the spec: C/I indication code for power-up indication
(`ISAC_IND_PU`, missing `isac.h`). -/
def ISAC_IND_PU : Nat := 0x7

/-- Modelled from the spec: C/I indication code for resynchronization
(`ISAC_IND_RSY`, missing `isac.h`). -/
def ISAC_IND_RSY : Nat := 0x4

/-- Modelled from the spec: C/I indication code for the info2-equivalent
state (`ISAC_IND_ARD`, missing `isac.h`); the spec scenario fixes this
code to `0x3` (state code `0x3` yields a signal-indication with INFO2). -/
def ISAC_IND_ARD : Nat := 0x3

/-- Modelled from the spec: C/I indication code for info4 at rate A
(`ISAC_IND_AI8`, missing `isac.h`). -/
def ISAC_IND_AI8 : Nat := 0xC

/-- Modelled from the spec: C/I indication code for info4 at rate B
(`ISAC_IND_AI10`, missing `isac.h`). -/
def ISAC_IND_AI10 : Nat := 0xD

/-- Modelled from the spec: C/I command code `ISAC_CMD_TIM` (timing)
of the missing `isac.h` header. -/
def ISAC_CMD_TIM : Nat := 0x0

/-- Modelled from the spec: C/I command code `ISAC_CMD_RS` (full reset)
of the missing `isac.h` header. -/
def ISAC_CMD_RS : Nat := 0x1

/-- Modelled from the spec: C/I command code `ISAC_CMD_AR8` of the
missing `isac.h` header. -/
def ISAC_CMD_AR8 : Nat := 0x8

/-- Modelled from the spec: C/I command code `ISAC_CMD_AR10` of the
missing `isac.h` header. -/
def ISAC_CMD_AR10 : Nat := 0x9

/-- Modelled from the spec: C/I command code `ISAC_CMD_DUI` (deactivate /
disable) of the missing `isac.h` header. -/
def ISAC_CMD_DUI : Nat := 0xF

/-- Linux `EBUSY` errno value. -/
def EBUSY : Int := 16

/-- Linux `EINVAL` errno value. -/
def EINVAL : Int := 22

/-- The D-channel context (`dchannel_t` plus the `isac_chip_t` hardware
part), restricted to the fields the embedded code paths touch.  Frame
buffers are byte lists; `tx_buf` holds the `tx_len` meaningful bytes of
the fixed-capacity transmit buffer (bytes past `tx_len` are never read
by any embedded path).  The monitor receive buffer is represented by the
prefix written so far, so `mon_rx` cursor `mon_rxp` equals its length. -/
structure DCh where
  rx_skb : Option (List Nat)
  tx_buf : List Nat
  tx_len : Nat
  tx_idx : Nat
  next_skb : Option (List Nat)
  flgTxBusy : Bool
  flgTxNext : Bool
  flgDbusyTimer : Bool
  flgL1Dbusy : Bool
  flgHwArcofi : Bool
  flgHwIom1 : Bool
  ph_state : Nat
  rqueue : List (List Nat)
  events : List Event
  err_rx : Nat
  err_crc : Nat
  err_tx : Nat
  mocr : Nat
  mon_rx : Option (List Nat)
  mon_tx : Option (List Nat)
  mon_txp : Nat
  mon_txc : Nat
  upCount : Nat
  deriving DecidableEq, Repr

/-- Hardware-supplied inputs of one interrupt invocation: the values the
handler would read from each register, the FIFO contents, and the
outcomes of the two atomic allocations. -/
structure HwIn where
  rsta : Nat
  rbcl : Nat
  cir0 : Nat
  cir1 : Nat
  exir : Nat
  mosr : Nat
  mor0 : Nat
  mor1 : Nat
  fifo : List Nat
  allocRxOk : Bool
  allocMonOk : Bool
  deriving DecidableEq, Repr

/-- Inputs of one busy-timer expiry: whether the non-blocking lock
attempt fails, and the two status registers read on success. -/
structure TimerIn where
  lockBusy : Bool
  rbch : Nat
  star : Nat
  deriving DecidableEq, Repr

/-- The `count` bytes delivered by a `read_fifo` burst. -/
def readFifoBytes (hw : HwIn) (count : Nat) : List Nat :=
  (List.range count).map (fun i => hw.fifo.getD i 0)

/-- `dchannel_sched_event`: set the event bit (idempotent on the mask)
and record the scheduling in the trace. -/
def dchannel_sched_event (dch : DCh) (e : Event) : DCh × List HwOp :=
  ({ dch with events := dch.events.insert e }, [HwOp.sched e])

/-- `ph_command`: write `(command << 2) | 3` to CIX0. -/
def ph_command (command : Nat) : List HwOp :=
  [HwOp.writeReg Reg.CIX0 ((command <<< 2) ||| 3)]

/-- The common tail of `isac_empty_fifo` once a receive buffer `buf` is
in place: overflow check against `MAX_DFRAME_LEN_L1`, then `skb_put` +
`read_fifo` + FIFO-reset strobe. -/
def emptyFifoAppend (hw : HwIn) (dch : DCh) (buf : List Nat) (count : Nat) :
    DCh × List HwOp :=
  if MAX_DFRAME_LEN_L1 ≤ buf.length + count then
    (dch, [HwOp.writeReg Reg.CMDR 0x80])
  else
    ({ dch with rx_skb := some (buf ++ readFifoBytes hw count) },
     [HwOp.readFifo count, HwOp.writeReg Reg.CMDR 0x80])

/-- `isac_empty_fifo`: ensure a receive buffer exists (allocation failure
flushes and drops), then append `count` FIFO bytes. -/
def isac_empty_fifo (hw : HwIn) (dch : DCh) (count : Nat) : DCh × List HwOp :=
  match dch.rx_skb with
  | some buf => emptyFifoAppend hw dch buf count
  | none =>
    if hw.allocRxOk then
      emptyFifoAppend hw { dch with rx_skb := some [] } [] count
    else
      (dch, [HwOp.logWarn, HwOp.writeReg Reg.CMDR 0x80])

/-- `isac_fill_fifo`: transfer up to one 32-byte chunk of the active
transmit buffer, issue the continue/last strobe, and (re)arm the
busy-recovery timer. -/
def isac_fill_fifo (dch : DCh) : DCh × List HwOp :=
  if dch.tx_len ≤ dch.tx_idx then (dch, [])
  else
    let remaining := dch.tx_len - dch.tx_idx
    let more := 32 < remaining
    let count := min remaining 32
    let chunk := (dch.tx_buf.drop dch.tx_idx).take count
    let timerOps := if dch.flgDbusyTimer then [HwOp.logWarn, HwOp.delTimer] else []
    ({ dch with tx_idx := dch.tx_idx + count, flgDbusyTimer := true },
     [HwOp.writeFifo chunk,
      HwOp.writeReg Reg.CMDR (if more then 0x8 else 0xa)]
     ++ timerOps ++ [HwOp.addTimer])

/-- The hardware-reported byte count of a complete frame: the low five
RBCL bits, a value of 0 meaning one full 32-byte burst. -/
def rbclCount (hw : HwIn) : Nat :=
  if hw.rbcl &&& 0x1f = 0 then 32 else hw.rbcl &&& 0x1f

/-- The RME (receive-frame-complete, status bit 0x80) handler of
`ISAC_interrupt`: check RSTA, either count/flush/discard the error frame
or drain and queue the clean frame; the receive slot ends empty and
`D_RCVBUFREADY` is scheduled.  The RDO/CRC error counters embed the
`ERROR_STATISTIC` build option of the source. -/
def handleRME (hw : HwIn) (dch : DCh) : DCh × List HwOp :=
  let exval := hw.rsta
  if exval &&& 0x70 = 0x20 then
    let count := rbclCount hw
    let r1 := isac_empty_fifo hw dch count
    let d2 := match r1.1.rx_skb with
              | some buf => { r1.1 with rqueue := r1.1.rqueue ++ [buf] }
              | none => r1.1
    let r3 := dchannel_sched_event { d2 with rx_skb := none } Event.D_RCVBUFREADY
    (r3.1, [HwOp.readReg Reg.RSTA, HwOp.readReg Reg.RBCL] ++ r1.2 ++ r3.2)
  else
    let d1 := if exval &&& 0x40 ≠ 0 then { dch with err_rx := dch.err_rx + 1 } else dch
    let d2 := if exval &&& 0x20 = 0 then { d1 with err_crc := d1.err_crc + 1 } else d1
    let tfree := match d2.rx_skb with
                 | some buf => [HwOp.kfreeSkb buf]
                 | none => []
    let r3 := dchannel_sched_event { d2 with rx_skb := none } Event.D_RCVBUFREADY
    (r3.1, [HwOp.readReg Reg.RSTA, HwOp.writeReg Reg.CMDR 0x80] ++ tfree ++ r3.2)

/-- Promotion of the queued next frame into the transmit buffer
(shared by the XPR and XDU handlers): copy payload, restart from offset
0, fill, and schedule the transmit-confirm event. -/
def txPromote (dch : DCh) (skb : List Nat) : DCh × List HwOp :=
  let r1 := isac_fill_fifo
    { dch with tx_len := skb.length, tx_buf := skb, tx_idx := 0 }
  let r2 := dchannel_sched_event r1.1 Event.D_XMTBUFREADY
  (r2.1, r1.2 ++ r2.2)

/-- The XPR (transmit-ready, status bit 0x10) handler of
`ISAC_interrupt`. -/
def handleXPR (dch : DCh) : DCh × List HwOp :=
  let timerOps := if dch.flgDbusyTimer then [HwOp.delTimer] else []
  let d0 := { dch with flgDbusyTimer := false }
  let r1 := if d0.flgL1Dbusy then
      dchannel_sched_event { d0 with flgL1Dbusy := false } Event.D_CLEARBUSY
    else (d0, [])
  if r1.1.tx_idx < r1.1.tx_len then
    let r2 := isac_fill_fifo r1.1
    (r2.1, timerOps ++ r1.2 ++ r2.2)
  else if r1.1.flgTxNext then
    let d2 := { r1.1 with flgTxNext := false }
    match d2.next_skb with
    | some skb =>
      let r3 := txPromote d2 skb
      (r3.1, timerOps ++ r1.2 ++ r3.2)
    | none =>
      ({ d2 with flgTxBusy := false }, timerOps ++ r1.2 ++ [HwOp.logWarn])
  else
    ({ r1.1 with flgTxBusy := false }, timerOps ++ r1.2)

/-- The CISQ (configuration/status change, status bit 0x04) handler of
`ISAC_interrupt`: decode CIR0, store the 4-bit state code, and defer the
notification via `D_L1STATECHANGE`. -/
def handleCISQ (hw : HwIn) (dch : DCh) : DCh × List HwOp :=
  let exval := hw.cir0
  let r1 := if exval &&& 2 ≠ 0 then
      dchannel_sched_event { dch with ph_state := (exval >>> 2) &&& 0xf }
        Event.D_L1STATECHANGE
    else (dch, [])
  let t2 := if exval &&& 1 ≠ 0 then [HwOp.readReg Reg.CIR1] else []
  (r1.1, [HwOp.readReg Reg.CIR0] ++ r1.2 ++ t2)

/-- The XDU (transmit data underrun, EXIR bit 0x40) sub-handler of the
extended-status interrupt. -/
def handleXDU (dch : DCh) : DCh × List HwOp :=
  let d0 := { dch with err_tx := dch.err_tx + 1 }
  let timerOps := if d0.flgDbusyTimer then [HwOp.delTimer] else []
  let d1 := { d0 with flgDbusyTimer := false }
  let r2 := if d1.flgL1Dbusy then
      dchannel_sched_event { d1 with flgL1Dbusy := false } Event.D_CLEARBUSY
    else (d1, [])
  if r2.1.flgTxBusy then
    let r3 := isac_fill_fifo { r2.1 with tx_idx := 0 }
    (r3.1, [HwOp.logWarn] ++ timerOps ++ r2.2 ++ r3.2)
  else if r2.1.flgTxNext then
    let d3 := { r2.1 with flgTxNext := false }
    match d3.next_skb with
    | some skb =>
      let r4 := txPromote d3 skb
      (r4.1, [HwOp.logWarn] ++ timerOps ++ r2.2 ++ r4.2)
    | none => (d3, [HwOp.logWarn] ++ timerOps ++ r2.2 ++ [HwOp.logWarn])
  else (r2.1, [HwOp.logWarn] ++ timerOps ++ r2.2)

/-- Monitor channel 0 receive byte (MOSR bit 0x08), after the receive
buffer is known to exist. -/
def monRx0Append (hw : HwIn) (dch : DCh) : DCh × List HwOp :=
  let buf := dch.mon_rx.getD []
  if MAX_MON_FRAME ≤ buf.length then
    let m := (dch.mocr &&& 0xf0) ||| 0x0a
    ({ dch with mocr := m, mon_rx := some [] },
     [HwOp.writeReg Reg.MOCR m, HwOp.logWarn])
  else
    let d1 := { dch with mon_rx := some (buf ++ [hw.mor0]) }
    if buf.length + 1 = 1 then
      let m := d1.mocr ||| 0x04
      ({ d1 with mocr := m },
       [HwOp.readReg Reg.MOR0, HwOp.writeReg Reg.MOCR m])
    else (d1, [HwOp.readReg Reg.MOR0])

/-- Monitor channel 0 receive byte (MOSR bit 0x08): lazily allocate the
receive buffer, disabling the channel on allocation failure. -/
def monRx0 (hw : HwIn) (dch : DCh) : DCh × List HwOp :=
  match dch.mon_rx with
  | some _ => monRx0Append hw dch
  | none =>
    if hw.allocMonOk then monRx0Append hw { dch with mon_rx := some [] }
    else
      let m := (dch.mocr &&& 0xf0) ||| 0x0a
      ({ dch with mocr := m }, [HwOp.logWarn, HwOp.writeReg Reg.MOCR m])

/-- Monitor channel 1 receive byte (MOSR bit 0x80), after the receive
buffer is known to exist.  Unlike channel 0, the ready sub-bit 0x40 is
written on every appended byte. -/
def monRx1Append (hw : HwIn) (dch : DCh) : DCh × List HwOp :=
  let buf := dch.mon_rx.getD []
  if MAX_MON_FRAME ≤ buf.length then
    let m := (dch.mocr &&& 0x0f) ||| 0xa0
    ({ dch with mocr := m, mon_rx := some [] },
     [HwOp.writeReg Reg.MOCR m, HwOp.logWarn])
  else
    let d1 := { dch with mon_rx := some (buf ++ [hw.mor1]) }
    let m := d1.mocr ||| 0x40
    ({ d1 with mocr := m },
     [HwOp.readReg Reg.MOR1, HwOp.writeReg Reg.MOCR m])

/-- Monitor channel 1 receive byte (MOSR bit 0x80). -/
def monRx1 (hw : HwIn) (dch : DCh) : DCh × List HwOp :=
  match dch.mon_rx with
  | some _ => monRx1Append hw dch
  | none =>
    if hw.allocMonOk then monRx1Append hw { dch with mon_rx := some [] }
    else
      let m := (dch.mocr &&& 0x0f) ||| 0xa0
      ({ dch with mocr := m }, [HwOp.logWarn, HwOp.writeReg Reg.MOCR m])

/-- Monitor channel 0 end-of-reception (MOSR bit 0x04). -/
def monEr0 (dch : DCh) : DCh × List HwOp :=
  let m1 := dch.mocr &&& 0xf0
  let m2 := m1 ||| 0x0a
  let r := dchannel_sched_event { dch with mocr := m2 } Event.D_RX_MON0
  (r.1, [HwOp.writeReg Reg.MOCR m1, HwOp.writeReg Reg.MOCR m2] ++ r.2)

/-- Monitor channel 1 end-of-reception (MOSR bit 0x40). -/
def monEr1 (dch : DCh) : DCh × List HwOp :=
  let m1 := dch.mocr &&& 0x0f
  let m2 := m1 ||| 0xa0
  let r := dchannel_sched_event { dch with mocr := m2 } Event.D_RX_MON1
  (r.1, [HwOp.writeReg Reg.MOCR m1, HwOp.writeReg Reg.MOCR m2] ++ r.2)

/-- Monitor channel 0 transmit-ready (MOSR bit 0x02): disable and/or
notify when no buffer is attached or the target length is reached,
otherwise write the next byte to MOX0. -/
def monTx0 (hw : HwIn) (dch : DCh) : DCh × List HwOp :=
  let v1 := hw.mosr
  if dch.mon_tx = none ∨
      (dch.mon_txc ≠ 0 ∧ dch.mon_txc ≤ dch.mon_txp ∧ v1 &&& 0x08 = 0) then
    let m1 := dch.mocr &&& 0xf0
    let m2 := m1 ||| 0x0a
    let d1 := { dch with mocr := m2 }
    let r2 := if dch.mon_txc ≠ 0 ∧ dch.mon_txc ≤ dch.mon_txp then
        dchannel_sched_event d1 Event.D_TX_MON0
      else (d1, [])
    (r2.1, [HwOp.writeReg Reg.MOCR m1, HwOp.writeReg Reg.MOCR m2] ++ r2.2)
  else if dch.mon_txc ≠ 0 ∧ dch.mon_txc ≤ dch.mon_txp then
    dchannel_sched_event dch Event.D_TX_MON0
  else
    let b := (dch.mon_tx.getD []).getD dch.mon_txp 0
    ({ dch with mon_txp := dch.mon_txp + 1 }, [HwOp.writeReg Reg.MOX0 b])

/-- Monitor channel 1 transmit-ready (MOSR bit 0x20). -/
def monTx1 (hw : HwIn) (dch : DCh) : DCh × List HwOp :=
  let v1 := hw.mosr
  if dch.mon_tx = none ∨
      (dch.mon_txc ≠ 0 ∧ dch.mon_txc ≤ dch.mon_txp ∧ v1 &&& 0x80 = 0) then
    let m1 := dch.mocr &&& 0x0f
    let m2 := m1 ||| 0xa0
    let d1 := { dch with mocr := m2 }
    let r2 := if dch.mon_txc ≠ 0 ∧ dch.mon_txc ≤ dch.mon_txp then
        dchannel_sched_event d1 Event.D_TX_MON1
      else (d1, [])
    (r2.1, [HwOp.writeReg Reg.MOCR m1, HwOp.writeReg Reg.MOCR m2] ++ r2.2)
  else if dch.mon_txc ≠ 0 ∧ dch.mon_txc ≤ dch.mon_txp then
    dchannel_sched_event dch Event.D_TX_MON1
  else
    let b := (dch.mon_tx.getD []).getD dch.mon_txp 0
    ({ dch with mon_txp := dch.mon_txp + 1 }, [HwOp.writeReg Reg.MOX1 b])

/-- Sequential composition of handler results: run `f` on the state left
by `r` and append its trace. -/
def hseq (r : DCh × List HwOp) (f : DCh → DCh × List HwOp) : DCh × List HwOp :=
  ((f r.1).1, r.2 ++ (f r.1).2)

/-- Conditional handler: run `f` when the status bit test `c` holds. -/
def hif (c : Prop) [Decidable c] (f : DCh → DCh × List HwOp) (dch : DCh) :
    DCh × List HwOp :=
  if c then f dch else (dch, [])

/-- A handler that only logs (the spurious RSC/SIN bits, and the XMR
sub-bit of the extended status). -/
def logStep (dch : DCh) : DCh × List HwOp := (dch, [HwOp.logWarn])

/-- The MOS (monitor status, EXIR bit 0x04) sub-handler: the six monitor
sub-protocols evaluated independently in MOSR bit order. -/
def handleMOS (hw : HwIn) (dch : DCh) : DCh × List HwOp :=
  let s := hseq (hseq (hseq (hseq (hseq
    (hif (hw.mosr &&& 0x08 ≠ 0) (monRx0 hw) dch)
    (hif (hw.mosr &&& 0x80 ≠ 0) (monRx1 hw)))
    (hif (hw.mosr &&& 0x04 ≠ 0) monEr0))
    (hif (hw.mosr &&& 0x40 ≠ 0) monEr1))
    (hif (hw.mosr &&& 0x02 ≠ 0) (monTx0 hw)))
    (hif (hw.mosr &&& 0x20 ≠ 0) (monTx1 hw))
  (s.1, HwOp.readReg Reg.MOSR :: s.2)

/-- The EXI (extended status, status bit 0x01) handler of
`ISAC_interrupt`: read EXIR and dispatch XMR (log only), XDU and MOS. -/
def handleEXI (hw : HwIn) (dch : DCh) : DCh × List HwOp :=
  let s := hseq (hseq
    (hif (hw.exir &&& 0x80 ≠ 0) logStep dch)
    (hif (hw.exir &&& 0x40 ≠ 0) handleXDU))
    (hif (hw.exir &&& 0x04 ≠ 0) (handleMOS hw))
  (s.1, HwOp.readReg Reg.EXIR :: s.2)

/-- `ISAC_interrupt`: decode the composite status byte `val` and run the
per-bit handlers in the fixed source order (RME, RPF, RSC, XPR, CISQ,
SIN, EXI). -/
def ISAC_interrupt (hw : HwIn) (dch : DCh) (val : Nat) : DCh × List HwOp :=
  hseq (hseq (hseq (hseq (hseq (hseq
    (hif (val &&& 0x80 ≠ 0) (handleRME hw) dch)
    (hif (val &&& 0x40 ≠ 0) (fun d => isac_empty_fifo hw d 32)))
    (hif (val &&& 0x20 ≠ 0) logStep))
    (hif (val &&& 0x10 ≠ 0) handleXPR))
    (hif (val &&& 0x04 ≠ 0) (handleCISQ hw)))
    (hif (val &&& 0x02 ≠ 0) logStep))
    (hif (val &&& 0x01 ≠ 0) (handleEXI hw))

/-- The `if_link` loop of `isac_new_ph`: one message to each stacked
upper interface. -/
def upSend (dch : DCh) (p : UpPrim) (a : UpPara) : List HwOp :=
  List.replicate dch.upCount (HwOp.upMsg p a)

/-- `isac_new_ph`: map the stored line state to the upstream indication;
reset/error indications first issue the disable C/I command under the
hardware-access lock.  The state is not modified, so only the trace is
returned. -/
def isac_new_ph (dch : DCh) : List HwOp :=
  if dch.ph_state = ISAC_IND_RS ∨ dch.ph_state = ISAC_IND_EI then
    [HwOp.lockHw] ++ ph_command ISAC_CMD_DUI ++ [HwOp.unlockHw]
      ++ upSend dch UpPrim.phControlInd UpPara.hwReset
  else if dch.ph_state = ISAC_IND_DID then
    upSend dch UpPrim.phControlCnf UpPara.hwDeactivate
  else if dch.ph_state = ISAC_IND_DR then
    upSend dch UpPrim.phControlInd UpPara.hwDeactivate
  else if dch.ph_state = ISAC_IND_PU then
    upSend dch UpPrim.phControlInd UpPara.hwPowerup
  else if dch.ph_state = ISAC_IND_RSY then
    upSend dch UpPrim.phSignalInd UpPara.anySignal
  else if dch.ph_state = ISAC_IND_ARD then
    upSend dch UpPrim.phSignalInd UpPara.info2
  else if dch.ph_state = ISAC_IND_AI8 then
    upSend dch UpPrim.phSignalInd UpPara.info4p8
  else if dch.ph_state = ISAC_IND_AI10 then
    upSend dch UpPrim.phSignalInd UpPara.info4p10
  else []

/-- `isac_hwbh`: the bottom-half step; drain `D_L1STATECHANGE` into
`isac_new_ph`, then (with the ARCOFI co-processor attached) hand the
monitor channel-1 end events to `arcofi_fsm`. -/
def isac_hwbh (dch : DCh) : DCh × List HwOp :=
  let r1 := if Event.D_L1STATECHANGE ∈ dch.events then
      ({ dch with events := dch.events.erase Event.D_L1STATECHANGE },
       isac_new_ph dch)
    else (dch, [])
  if !r1.1.flgHwArcofi then r1
  else
    let r2 := if Event.D_RX_MON1 ∈ r1.1.events then
        ({ r1.1 with events := r1.1.events.erase Event.D_RX_MON1 },
         [HwOp.arcofiFsm true])
      else (r1.1, [])
    let r3 := if Event.D_TX_MON1 ∈ r2.1.events then
        ({ r2.1 with events := r2.1.events.erase Event.D_TX_MON1 },
         [HwOp.arcofiFsm false])
      else (r2.1, [])
    (r3.1, r1.2 ++ r2.2 ++ r3.2)

/-- Decoded `dinfo` of a `PH_SIGNAL | REQUEST`; the numeric constants
live in the missing `hisaxl1.h` header, so the decoded tag is modelled. -/
inductive SigInfo where
  | info3p8 | info3p10 | otherSig (x : Nat)
  deriving DecidableEq, Repr

/-- Decoded `dinfo` of a `PH_CONTROL | REQUEST`; `hwTestloop` carries the
low two loop-selection bits of the parameter. -/
inductive CtrlInfo where
  | hwReset | hwPowerup | hwDeactivate | hwTestloop (mask : Nat) | otherCtrl (x : Nat)
  deriving DecidableEq, Repr

/-- The request primitive delivered to `ISAC_l1hw` (the skb payload is
passed separately). -/
inductive L1Req where
  | dataReq | signalReq (si : SigInfo) | controlReq (ci : CtrlInfo) | otherReq
  deriving DecidableEq, Repr

/-- The test-loop branch of the control request: bitmask to the two
register values, with the register mapping depending on the IOM mode. -/
def testloopWrites (dch : DCh) (mask : Nat) : List HwOp :=
  let tl0 := if mask &&& 1 ≠ 0 then 0x0c else 0
  let tl := if mask &&& 2 ≠ 0 then tl0 ||| 0x3 else tl0
  if dch.flgHwIom1 then
    if tl = 0 then
      [HwOp.writeReg Reg.SPCR 0xa, HwOp.writeReg Reg.ADF1 0x2]
    else
      [HwOp.writeReg Reg.SPCR tl, HwOp.writeReg Reg.ADF1 0xa]
  else
    if tl = 0 then
      [HwOp.writeReg Reg.SPCR tl, HwOp.writeReg Reg.ADF1 0x0]
    else
      [HwOp.writeReg Reg.SPCR tl, HwOp.writeReg Reg.ADF1 0x8]

/-- `ISAC_l1hw`: the upstream command handler.  Returns the errno-style
result, the new state and the trace; `skb` is the request frame buffer
(payload of a data request, ownership token otherwise). -/
def ISAC_l1hw (dch : DCh) (req : L1Req) (skb : List Nat) :
    Int × DCh × List HwOp :=
  match req with
  | L1Req.dataReq =>
    if dch.next_skb ≠ none then (-EBUSY, dch, [HwOp.logWarn])
    else if dch.flgTxBusy then
      (0, { dch with flgTxNext := true, next_skb := some skb },
       [HwOp.lockHw, HwOp.unlockHw])
    else
      let r := isac_fill_fifo { dch with
        flgTxBusy := true, tx_len := skb.length,
        tx_buf := skb, tx_idx := 0 }
      (0, r.1,
       [HwOp.lockHw] ++ r.2
         ++ [HwOp.unlockHw, HwOp.upMsg UpPrim.phDataCnf UpPara.dinfoSkb])
  | L1Req.signalReq si =>
    match si with
    | SigInfo.info3p8 =>
      (0, dch, [HwOp.lockHw] ++ ph_command ISAC_CMD_AR8
        ++ [HwOp.unlockHw, HwOp.kfreeSkb skb])
    | SigInfo.info3p10 =>
      (0, dch, [HwOp.lockHw] ++ ph_command ISAC_CMD_AR10
        ++ [HwOp.unlockHw, HwOp.kfreeSkb skb])
    | SigInfo.otherSig _ =>
      (-EINVAL, dch, [HwOp.lockHw, HwOp.unlockHw])
  | L1Req.controlReq ci =>
    match ci with
    | CtrlInfo.hwReset =>
      let cmd := if dch.ph_state = ISAC_IND_EI ∨ dch.ph_state = ISAC_IND_DR ∨
          dch.ph_state = ISAC_IND_RS then ISAC_CMD_TIM else ISAC_CMD_RS
      (0, dch, [HwOp.lockHw] ++ ph_command cmd
        ++ [HwOp.unlockHw, HwOp.kfreeSkb skb])
    | CtrlInfo.hwPowerup =>
      (0, dch, [HwOp.lockHw] ++ ph_command ISAC_CMD_TIM
        ++ [HwOp.unlockHw, HwOp.kfreeSkb skb])
    | CtrlInfo.hwDeactivate =>
      let tq := dch.rqueue.map (fun b => HwOp.kfreeSkb b)
      let tn := match dch.next_skb with
                | some b => [HwOp.kfreeSkb b]
                | none => []
      let d1 := { dch with
        rqueue := [], next_skb := none,
        flgTxNext := false, flgTxBusy := false }
      let timerOps := if d1.flgDbusyTimer then [HwOp.delTimer] else []
      let d2 := { d1 with flgDbusyTimer := false }
      let r3 := if d2.flgL1Dbusy then
          dchannel_sched_event { d2 with flgL1Dbusy := false } Event.D_CLEARBUSY
        else (d2, [])
      (0, r3.1, [HwOp.lockHw] ++ tq ++ tn ++ timerOps ++ r3.2
        ++ [HwOp.unlockHw, HwOp.kfreeSkb skb])
    | CtrlInfo.hwTestloop mask =>
      (0, dch, [HwOp.lockHw] ++ testloopWrites dch mask
        ++ [HwOp.unlockHw, HwOp.kfreeSkb skb])
    | CtrlInfo.otherCtrl _ =>
      (-EINVAL, dch, [HwOp.lockHw, HwOp.logWarn, HwOp.unlockHw])
  | L1Req.otherReq => (-EINVAL, dch, [HwOp.logWarn])

/-- `dbusy_timer_handler`: the busy-recovery timer expiry.  With the
armed flag clear it does nothing; with the lock busy it reschedules one
tick later; otherwise it reads RBCH/STAR and performs the single
recovery action. -/
def dbusy_timer_handler (hwt : TimerIn) (dch : DCh) : DCh × List HwOp :=
  if dch.flgDbusyTimer then
    if hwt.lockBusy then (dch, [HwOp.addTimer])
    else
      let readOps := [HwOp.lockHw, HwOp.readReg Reg.RBCH, HwOp.readReg Reg.STAR]
      if hwt.rbch &&& ISAC_RBCH_XAC ≠ 0 then
        ({ dch with flgL1Dbusy := true }, readOps ++ [HwOp.unlockHw])
      else
        let logOps := if dch.tx_idx = 0 then [HwOp.logWarn] else []
        ({ dch with flgDbusyTimer := false, tx_idx := 0 },
         readOps ++ logOps ++ [HwOp.writeReg Reg.CMDR 0x01, HwOp.unlockHw])
  else (dch, [])

/-- The upstream messages contained in a trace. -/
def upMsgs (t : List HwOp) : List HwOp :=
  t.filter (fun op => match op with | HwOp.upMsg _ _ => true | _ => false)

/-- Concatenated payload of the FIFO burst writes of a trace. -/
def fifoPayload : List HwOp → List Nat
  | [] => []
  | HwOp.writeFifo d :: t => d ++ fifoPayload t
  | _ :: t => fifoPayload t

/-- The bytes written to the monitor transmit data registers (MOX0 or
MOX1) of a trace, in order. -/
def moxBytes : List HwOp → List Nat
  | [] => []
  | HwOp.writeReg Reg.MOX0 v :: t => v :: moxBytes t
  | HwOp.writeReg Reg.MOX1 v :: t => v :: moxBytes t
  | _ :: t => moxBytes t

/-- How many times event `e` is scheduled in a trace. -/
def countSched (e : Event) (t : List HwOp) : Nat :=
  (t.filter (fun op => op = HwOp.sched e)).length

/-- Whether a trace contains a write to the monitor control register. -/
def writesMOCR (t : List HwOp) : Bool :=
  t.any (fun op => match op with | HwOp.writeReg Reg.MOCR _ => true | _ => false)

/-- Whether a trace contains any register write. -/
def writesAnyReg (t : List HwOp) : Bool :=
  t.any (fun op => match op with | HwOp.writeReg _ _ => true | _ => false)

/-- Whether a trace contains any upstream message. -/
def sendsUp (t : List HwOp) : Bool :=
  t.any (fun op => match op with | HwOp.upMsg _ _ => true | _ => false)

/-- A run of `n` transmit-ready interrupts (status byte 0x10). -/
def xprSteps (hw : HwIn) (dch : DCh) : Nat → DCh × List HwOp
  | 0 => (dch, [])
  | n + 1 =>
    let r := ISAC_interrupt hw dch 0x10
    let r2 := xprSteps hw r.1 n
    (r2.1, r.2 ++ r2.2)

/-- A run of interrupts, each with its own hardware inputs and status
byte. -/
def intrRun (dch : DCh) : List (HwIn × Nat) → DCh × List HwOp
  | [] => (dch, [])
  | p :: rest =>
    let r := ISAC_interrupt p.1 dch p.2
    let r2 := intrRun r.1 rest
    (r2.1, r.2 ++ r2.2)

/-- The cursor segment `[a, a+n)` of a monitor transmit buffer, as the
byte values the driver would fetch. -/
def bufSeg (buf : List Nat) (a n : Nat) : List Nat :=
  (List.range' a n).map (fun i => buf.getD i 0)

/-- Modelled from the spec: the state-code to (primitive, parameter)
mapping table of spec section 4.3, to be compared with the source
dispatch `isac_new_ph`. -/
def phTable (code : Nat) : Option (UpPrim × UpPara) :=
  if code = ISAC_IND_RS ∨ code = ISAC_IND_EI then
    some (UpPrim.phControlInd, UpPara.hwReset)
  else if code = ISAC_IND_DID then some (UpPrim.phControlCnf, UpPara.hwDeactivate)
  else if code = ISAC_IND_DR then some (UpPrim.phControlInd, UpPara.hwDeactivate)
  else if code = ISAC_IND_PU then some (UpPrim.phControlInd, UpPara.hwPowerup)
  else if code = ISAC_IND_RSY then some (UpPrim.phSignalInd, UpPara.anySignal)
  else if code = ISAC_IND_ARD then some (UpPrim.phSignalInd, UpPara.info2)
  else if code = ISAC_IND_AI8 then some (UpPrim.phSignalInd, UpPara.info4p8)
  else if code = ISAC_IND_AI10 then some (UpPrim.phSignalInd, UpPara.info4p10)
  else none

/-- A quiescent channel context, used to build concrete witness states. -/
def dch0 : DCh where
  rx_skb := none
  tx_buf := []
  tx_len := 0
  tx_idx := 0
  next_skb := none
  flgTxBusy := false
  flgTxNext := false
  flgDbusyTimer := false
  flgL1Dbusy := false
  flgHwArcofi := false
  flgHwIom1 := false
  ph_state := 0
  rqueue := []
  events := []
  err_rx := 0
  err_crc := 0
  err_tx := 0
  mocr := 0xaa
  mon_rx := none
  mon_tx := none
  mon_txp := 0
  mon_txc := 0
  upCount := 1

/-- Neutral hardware inputs, used to build concrete witness inputs. -/
def hw0 : HwIn where
  rsta := 0x20
  rbcl := 0
  cir0 := 0
  cir1 := 0
  exir := 0
  mosr := 0
  mor0 := 0
  mor1 := 0
  fifo := []
  allocRxOk := true
  allocMonOk := true

theorem readFifoBytes_length (hw : HwIn) (count : Nat) :
    (readFifoBytes hw count).length = count := by
  simp [readFifoBytes]

/-- C2: every invocation of `isac_fill_fifo` is a no-op when no bytes
remain in the active transmit buffer; otherwise it transfers
`min(remaining, 32)` bytes — never more than 32 — advances the transmit
cursor by exactly that amount, writes the continue strobe 0x8 to the
command register when bytes remain after the transfer and the last-chunk
strobe 0xa when none remain, and (re)arms the busy-recovery timer,
cancelling and logging if one was already armed. -/
theorem C2_fill_fifo (dch : DCh) :
    (dch.tx_len ≤ dch.tx_idx → isac_fill_fifo dch = (dch, [])) ∧
    (dch.tx_idx < dch.tx_len →
      let cnt := min (dch.tx_len - dch.tx_idx) 32
      let r := isac_fill_fifo dch
      cnt ≤ 32 ∧
      r.1.tx_idx = dch.tx_idx + cnt ∧
      r.2 = [HwOp.writeFifo ((dch.tx_buf.drop dch.tx_idx).take cnt),
             HwOp.writeReg Reg.CMDR
               (if dch.tx_idx + cnt < dch.tx_len then 0x8 else 0xa)]
            ++ (if dch.flgDbusyTimer then [HwOp.logWarn, HwOp.delTimer] else [])
            ++ [HwOp.addTimer] ∧
      r.1.flgDbusyTimer = true) := by
  constructor
  · intro h
    simp [isac_fill_fifo, h]
  · intro h
    have hn : ¬ dch.tx_len ≤ dch.tx_idx := by omega
    refine ⟨Nat.min_le_right _ _, ?_, ?_, ?_⟩
    · simp only [isac_fill_fifo, if_neg hn]
    · simp only [isac_fill_fifo, if_neg hn]
      by_cases h32 : 32 < dch.tx_len - dch.tx_idx
      · rw [if_pos h32,
          if_pos (show dch.tx_idx + min (dch.tx_len - dch.tx_idx) 32 < dch.tx_len
            by omega)]
      · rw [if_neg h32,
          if_neg (show ¬ dch.tx_idx + min (dch.tx_len - dch.tx_idx) 32 < dch.tx_len
            by omega)]
    · simp only [isac_fill_fifo, if_neg hn]

theorem C2_fill_fifo_witness :
    (isac_fill_fifo dch0 = (dch0, [])) ∧
    (min (40 - 0) 32 ≤ 32 ∧
     (isac_fill_fifo { dch0 with tx_buf := List.range 40, tx_len := 40 }).1.tx_idx
        = 0 + min (40 - 0) 32 ∧
     (isac_fill_fifo { dch0 with tx_buf := List.range 40, tx_len := 40 }).2 =
       [HwOp.writeFifo (((List.range 40).drop 0).take (min (40 - 0) 32)),
        HwOp.writeReg Reg.CMDR (if 0 + min (40 - 0) 32 < 40 then 0x8 else 0xa)]
       ++ (if false = true then [HwOp.logWarn, HwOp.delTimer] else [])
       ++ [HwOp.addTimer] ∧
     (isac_fill_fifo { dch0 with tx_buf := List.range 40, tx_len := 40 }).1.flgDbusyTimer
        = true) :=
  ⟨(C2_fill_fifo dch0).1 (by decide),
   (C2_fill_fifo { dch0 with tx_buf := List.range 40, tx_len := 40 }).2 (by decide)⟩

/-- C4: `isac_empty_fifo` rejects any count that would make the receive
buffer reach or exceed the maximum D-channel frame size — it writes the
FIFO-reset strobe 0x80, drops the bytes, and leaves the channel state
(in particular the receive buffer) unchanged; the same flush-and-drop,
with no retry, happens when receive-buffer allocation fails; on the
accepted path it appends exactly `count` bytes at the buffer's write
cursor and then issues the FIFO-reset strobe. -/
theorem C4_empty_fifo (hw : HwIn) (dch : DCh) (count : Nat) :
    (∀ buf, dch.rx_skb = some buf → MAX_DFRAME_LEN_L1 ≤ buf.length + count →
      isac_empty_fifo hw dch count = (dch, [HwOp.writeReg Reg.CMDR 0x80])) ∧
    (dch.rx_skb = none → hw.allocRxOk = false →
      isac_empty_fifo hw dch count =
        (dch, [HwOp.logWarn, HwOp.writeReg Reg.CMDR 0x80])) ∧
    (∀ buf, dch.rx_skb = some buf → buf.length + count < MAX_DFRAME_LEN_L1 →
      isac_empty_fifo hw dch count =
        ({ dch with rx_skb := some (buf ++ readFifoBytes hw count) },
         [HwOp.readFifo count, HwOp.writeReg Reg.CMDR 0x80]) ∧
      (readFifoBytes hw count).length = count) := by
  refine ⟨?_, ?_, ?_⟩
  · intro buf hb hlen
    simp [isac_empty_fifo, hb, emptyFifoAppend, if_pos hlen]
  · intro hb hal
    simp [isac_empty_fifo, hb, hal]
  · intro buf hb hlen
    have hn : ¬ MAX_DFRAME_LEN_L1 ≤ buf.length + count := by omega
    refine ⟨?_, readFifoBytes_length hw count⟩
    simp [isac_empty_fifo, hb, emptyFifoAppend, if_neg hn]

theorem C4_empty_fifo_witness :
    (isac_empty_fifo hw0 { dch0 with rx_skb := some [1] } 400 =
      ({ dch0 with rx_skb := some [1] },
       [HwOp.writeReg Reg.CMDR 0x80])) ∧
    (isac_empty_fifo { hw0 with allocRxOk := false } dch0 5 =
      (dch0, [HwOp.logWarn, HwOp.writeReg Reg.CMDR 0x80])) ∧
    (isac_empty_fifo { hw0 with fifo := [7, 8, 9] }
        { dch0 with rx_skb := some [1] } 3 =
      ({ dch0 with rx_skb := some ([1] ++ readFifoBytes { hw0 with fifo := [7, 8, 9] } 3) },
       [HwOp.readFifo 3, HwOp.writeReg Reg.CMDR 0x80])) :=
  ⟨(C4_empty_fifo hw0 { dch0 with rx_skb := some [1] } 400).1
      [1] rfl (by decide),
   (C4_empty_fifo { hw0 with allocRxOk := false } dch0 5).2.1 rfl rfl,
   ((C4_empty_fifo { hw0 with fifo := [7, 8, 9] }
      { dch0 with rx_skb := some [1] } 3).2.2 [1] rfl (by decide)).1⟩

theorem fill_fifo_tx_buf (dch : DCh) : (isac_fill_fifo dch).1.tx_buf = dch.tx_buf := by
  unfold isac_fill_fifo
  split <;> rfl

theorem fill_fifo_tx_len (dch : DCh) : (isac_fill_fifo dch).1.tx_len = dch.tx_len := by
  unfold isac_fill_fifo
  split <;> rfl

/-- C1: for every `PH_DATA_REQ` delivered to `ISAC_l1hw`: if the queued
next slot is occupied the call returns `-EBUSY` with no register write,
no channel-state change, and no release of the frame (the caller keeps
it); if the transmit-busy flag was clear, the payload is copied into the
transmit buffer, `isac_fill_fifo` runs between the lock and unlock of
the hardware-access lock, and a data-confirm is sent upstream; if
transmit is busy and nothing is queued, the frame is stored as the
queued next frame, the queued-next flag is set, and the call returns 0
immediately without a confirm. -/
theorem C1_send_frame (dch : DCh) (skb : List Nat) :
    (dch.next_skb ≠ none →
      ISAC_l1hw dch L1Req.dataReq skb = (-EBUSY, dch, [HwOp.logWarn])) ∧
    (dch.next_skb = none → dch.flgTxBusy = false →
      ISAC_l1hw dch L1Req.dataReq skb =
        (0,
         (isac_fill_fifo { dch with
            flgTxBusy := true, tx_len := skb.length,
            tx_buf := skb, tx_idx := 0 }).1,
         [HwOp.lockHw]
           ++ (isac_fill_fifo { dch with
                flgTxBusy := true, tx_len := skb.length,
                tx_buf := skb, tx_idx := 0 }).2
           ++ [HwOp.unlockHw, HwOp.upMsg UpPrim.phDataCnf UpPara.dinfoSkb]) ∧
      (ISAC_l1hw dch L1Req.dataReq skb).2.1.tx_buf = skb ∧
      (ISAC_l1hw dch L1Req.dataReq skb).2.1.tx_len = skb.length) ∧
    (dch.next_skb = none → dch.flgTxBusy = true →
      ISAC_l1hw dch L1Req.dataReq skb =
        (0, { dch with flgTxNext := true, next_skb := some skb },
         [HwOp.lockHw, HwOp.unlockHw])) := by
  refine ⟨?_, ?_, ?_⟩
  · intro h
    simp [ISAC_l1hw, h]
  · intro h hb
    have h1 : ISAC_l1hw dch L1Req.dataReq skb =
        (0,
         (isac_fill_fifo { dch with
            flgTxBusy := true, tx_len := skb.length,
            tx_buf := skb, tx_idx := 0 }).1,
         [HwOp.lockHw]
           ++ (isac_fill_fifo { dch with
                flgTxBusy := true, tx_len := skb.length,
                tx_buf := skb, tx_idx := 0 }).2
           ++ [HwOp.unlockHw, HwOp.upMsg UpPrim.phDataCnf UpPara.dinfoSkb]) := by
      simp [ISAC_l1hw, h, hb]
    refine ⟨h1, ?_, ?_⟩
    · rw [h1]
      exact fill_fifo_tx_buf _
    · rw [h1]
      exact fill_fifo_tx_len _
  · intro h hb
    simp [ISAC_l1hw, h, hb]

theorem C1_send_frame_witness :
    (ISAC_l1hw { dch0 with next_skb := some [1] } L1Req.dataReq [2, 3] =
      (-EBUSY, { dch0 with next_skb := some [1] }, [HwOp.logWarn])) ∧
    ((ISAC_l1hw dch0 L1Req.dataReq [2, 3]).2.1.tx_buf = [2, 3]) ∧
    (ISAC_l1hw { dch0 with flgTxBusy := true } L1Req.dataReq [2, 3] =
      (0, { dch0 with flgTxBusy := true, flgTxNext := true, next_skb := some [2, 3] },
       [HwOp.lockHw, HwOp.unlockHw])) :=
  ⟨(C1_send_frame { dch0 with next_skb := some [1] } [2, 3]).1 (by decide),
   ((C1_send_frame dch0 [2, 3]).2.1 rfl rfl).2.1,
   (C1_send_frame { dch0 with flgTxBusy := true } [2, 3]).2.2 rfl rfl⟩

/-- C7: on a busy-recovery-timer expiry with the armed flag set, if the
hardware-access lock is unavailable the handler only reschedules itself
(one `add_timer`, no register access, no state change); otherwise it
reads RBCH and STAR and performs exactly one recovery action: with the
receiver still active it sets the link-busy flag and does not re-arm the
timer, and with a stalled transmit it clears the armed flag, zeroes the
transmit cursor, and writes the transmitter-reset strobe 0x01.  An
expiry with the armed flag clear performs no register access and no
state change. -/
theorem C7_dbusy_timer (hwt : TimerIn) (dch : DCh) :
    (dch.flgDbusyTimer = false → dbusy_timer_handler hwt dch = (dch, [])) ∧
    (dch.flgDbusyTimer = true → hwt.lockBusy = true →
      dbusy_timer_handler hwt dch = (dch, [HwOp.addTimer])) ∧
    (dch.flgDbusyTimer = true → hwt.lockBusy = false →
      hwt.rbch &&& ISAC_RBCH_XAC ≠ 0 →
      dbusy_timer_handler hwt dch =
        ({ dch with flgL1Dbusy := true },
         [HwOp.lockHw, HwOp.readReg Reg.RBCH, HwOp.readReg Reg.STAR,
          HwOp.unlockHw])) ∧
    (dch.flgDbusyTimer = true → hwt.lockBusy = false →
      hwt.rbch &&& ISAC_RBCH_XAC = 0 →
      dbusy_timer_handler hwt dch =
        ({ dch with flgDbusyTimer := false, tx_idx := 0 },
         [HwOp.lockHw, HwOp.readReg Reg.RBCH, HwOp.readReg Reg.STAR]
         ++ (if dch.tx_idx = 0 then [HwOp.logWarn] else [])
         ++ [HwOp.writeReg Reg.CMDR 0x01, HwOp.unlockHw])) := by
  refine ⟨?_, ?_, ?_, ?_⟩
  · intro h
    simp [dbusy_timer_handler, h]
  · intro h hl
    simp [dbusy_timer_handler, h, hl]
  · intro h hl hx
    simp [dbusy_timer_handler, h, hl, hx]
  · intro h hl hx
    simp [dbusy_timer_handler, h, hl, hx]

theorem C7_dbusy_timer_witness :
    (dbusy_timer_handler { lockBusy := false, rbch := 0, star := 0 } dch0 =
      (dch0, [])) ∧
    (dbusy_timer_handler { lockBusy := true, rbch := 0, star := 0 }
        { dch0 with flgDbusyTimer := true } =
      ({ dch0 with flgDbusyTimer := true }, [HwOp.addTimer])) ∧
    (dbusy_timer_handler { lockBusy := false, rbch := 0x80, star := 0 }
        { dch0 with flgDbusyTimer := true } =
      ({ dch0 with flgDbusyTimer := true, flgL1Dbusy := true },
       [HwOp.lockHw, HwOp.readReg Reg.RBCH, HwOp.readReg Reg.STAR,
        HwOp.unlockHw])) ∧
    (dbusy_timer_handler { lockBusy := false, rbch := 0, star := 0 }
        { dch0 with flgDbusyTimer := true, tx_idx := 7 } =
      ({ dch0 with flgDbusyTimer := false, tx_idx := 0 },
       [HwOp.lockHw, HwOp.readReg Reg.RBCH, HwOp.readReg Reg.STAR]
       ++ (if (7 : Nat) = 0 then [HwOp.logWarn] else [])
       ++ [HwOp.writeReg Reg.CMDR 0x01, HwOp.unlockHw])) :=
  ⟨(C7_dbusy_timer { lockBusy := false, rbch := 0, star := 0 } dch0).1 rfl,
   (C7_dbusy_timer { lockBusy := true, rbch := 0, star := 0 }
      { dch0 with flgDbusyTimer := true }).2.1 rfl rfl,
   (C7_dbusy_timer { lockBusy := false, rbch := 0x80, star := 0 }
      { dch0 with flgDbusyTimer := true }).2.2.1 rfl rfl (by decide),
   (C7_dbusy_timer { lockBusy := false, rbch := 0, star := 0 }
      { dch0 with flgDbusyTimer := true, tx_idx := 7 }).2.2.2 rfl rfl (by decide)⟩

/-- C8: after a control-request with the deactivate parameter completes,
the channel context has the busy-recovery-timer armed flag clear, the
queued next frame released and its flag clear, the transmit-busy flag
clear, and an empty receive completion queue; the stored timer is also
deleted when it was armed. -/
theorem C8_deactivate (dch : DCh) (skb : List Nat) :
    (ISAC_l1hw dch (L1Req.controlReq CtrlInfo.hwDeactivate) skb).1 = 0 ∧
    (ISAC_l1hw dch (L1Req.controlReq CtrlInfo.hwDeactivate) skb).2.1.flgDbusyTimer
      = false ∧
    (ISAC_l1hw dch (L1Req.controlReq CtrlInfo.hwDeactivate) skb).2.1.next_skb
      = none ∧
    (ISAC_l1hw dch (L1Req.controlReq CtrlInfo.hwDeactivate) skb).2.1.flgTxNext
      = false ∧
    (ISAC_l1hw dch (L1Req.controlReq CtrlInfo.hwDeactivate) skb).2.1.flgTxBusy
      = false ∧
    (ISAC_l1hw dch (L1Req.controlReq CtrlInfo.hwDeactivate) skb).2.1.rqueue
      = [] ∧
    (dch.flgDbusyTimer = true →
      HwOp.delTimer ∈ (ISAC_l1hw dch (L1Req.controlReq CtrlInfo.hwDeactivate) skb).2.2) := by
  by_cases hT : dch.flgDbusyTimer <;> by_cases hL : dch.flgL1Dbusy <;>
    simp [ISAC_l1hw, dchannel_sched_event, hT, hL]

theorem C8_deactivate_witness :
    HwOp.delTimer ∈
      (ISAC_l1hw { dch0 with flgDbusyTimer := true, rqueue := [[1], [2]] }
        (L1Req.controlReq CtrlInfo.hwDeactivate) [5]).2.2 ∧
    (ISAC_l1hw { dch0 with flgDbusyTimer := true, rqueue := [[1], [2]] }
        (L1Req.controlReq CtrlInfo.hwDeactivate) [5]).2.1.rqueue = [] :=
  ⟨(C8_deactivate { dch0 with flgDbusyTimer := true, rqueue := [[1], [2]] } [5]).2.2.2.2.2.2
      rfl,
   (C8_deactivate { dch0 with flgDbusyTimer := true, rqueue := [[1], [2]] } [5]).2.2.2.2.2.1⟩

theorem interrupt_rme (hw : HwIn) (dch : DCh) :
    ISAC_interrupt hw dch 0x80 = handleRME hw dch := by
  simp [ISAC_interrupt, hseq, hif, logStep,
    show (0x80 &&& 0x80 : Nat) = 0x80 from rfl,
    show (0x80 &&& 0x40 : Nat) = 0 from rfl,
    show (0x80 &&& 0x20 : Nat) = 0 from rfl,
    show (0x80 &&& 0x10 : Nat) = 0 from rfl,
    show (0x80 &&& 0x04 : Nat) = 0 from rfl,
    show (0x80 &&& 0x02 : Nat) = 0 from rfl,
    show (0x80 &&& 0x01 : Nat) = 0 from rfl]

theorem interrupt_xpr (hw : HwIn) (dch : DCh) :
    ISAC_interrupt hw dch 0x10 = handleXPR dch := by
  simp [ISAC_interrupt, hseq, hif, logStep,
    show (0x10 &&& 0x80 : Nat) = 0 from rfl,
    show (0x10 &&& 0x40 : Nat) = 0 from rfl,
    show (0x10 &&& 0x20 : Nat) = 0 from rfl,
    show (0x10 &&& 0x10 : Nat) = 0x10 from rfl,
    show (0x10 &&& 0x04 : Nat) = 0 from rfl,
    show (0x10 &&& 0x02 : Nat) = 0 from rfl,
    show (0x10 &&& 0x01 : Nat) = 0 from rfl]

theorem interrupt_cisq (hw : HwIn) (dch : DCh) :
    ISAC_interrupt hw dch 0x04 = handleCISQ hw dch := by
  simp [ISAC_interrupt, hseq, hif, logStep,
    show (0x04 &&& 0x80 : Nat) = 0 from rfl,
    show (0x04 &&& 0x40 : Nat) = 0 from rfl,
    show (0x04 &&& 0x20 : Nat) = 0 from rfl,
    show (0x04 &&& 0x10 : Nat) = 0 from rfl,
    show (0x04 &&& 0x04 : Nat) = 0x04 from rfl,
    show (0x04 &&& 0x02 : Nat) = 0 from rfl,
    show (0x04 &&& 0x01 : Nat) = 0 from rfl]

theorem interrupt_exi (hw : HwIn) (dch : DCh) :
    ISAC_interrupt hw dch 0x01 = handleEXI hw dch := by
  simp [ISAC_interrupt, hseq, hif, logStep,
    show (0x01 &&& 0x80 : Nat) = 0 from rfl,
    show (0x01 &&& 0x40 : Nat) = 0 from rfl,
    show (0x01 &&& 0x20 : Nat) = 0 from rfl,
    show (0x01 &&& 0x10 : Nat) = 0 from rfl,
    show (0x01 &&& 0x04 : Nat) = 0 from rfl,
    show (0x01 &&& 0x02 : Nat) = 0 from rfl,
    show (0x01 &&& 0x01 : Nat) = 0x01 from rfl]

/-- C3 counterexample state: a partially received frame is pending. -/
def c3dch : DCh := { dch0 with rx_skb := some [1, 2] }

/-- C3 counterexample inputs: RSTA = 0x30, i.e. frame aborted (RAB set),
no receive data overflow (bit 0x40 clear) and CRC good (bit 0x20 set),
so `(RSTA &&& 0x70) = 0x30 ≠ 0x20`. -/
def c3hw : HwIn := { hw0 with rsta := 0x30 }

/-- C3 is refuted as stated: at RSTA = 0x30 the frame is not clean and
is discarded without being queued, yet no error counter changes, against
the claim that for every non-clean frame "the error is counted". -/
theorem C3_counterexample :
    (c3hw.rsta &&& 0x70 ≠ 0x20) ∧
    (ISAC_interrupt c3hw c3dch 0x80).1.rqueue = c3dch.rqueue ∧
    (ISAC_interrupt c3hw c3dch 0x80).1.rx_skb = none ∧
    (ISAC_interrupt c3hw c3dch 0x80).1.err_rx = c3dch.err_rx ∧
    (ISAC_interrupt c3hw c3dch 0x80).1.err_crc = c3dch.err_crc ∧
    (ISAC_interrupt c3hw c3dch 0x80).1.err_tx = c3dch.err_tx := by
  decide

/-- C3 (amended): for every receive-frame-complete interrupt (status bit
0x80): a frame whose RSTA value is not clean (`(RSTA &&& 0x70) ≠ 0x20`)
is discarded without being queued — the FIFO is flushed with command
0x80, the pending receive buffer is freed — and an error counter is
incremented exactly when the status reports overrun (bit 0x40 set,
`err_rx`) or CRC failure (bit 0x20 clear, `err_crc`), not for every
non-clean frame; a clean frame received into an empty slot (allocation
succeeding) is queued to the receive completion queue exactly once with
the hardware-reported byte count (a raw count of 0 meaning one full
32-byte burst); in both cases the receive-buffer slot ends empty and a
data-ready notification is scheduled. -/
theorem C3_rme (hw : HwIn) (dch : DCh) :
    (hw.rsta &&& 0x70 ≠ 0x20 →
      (ISAC_interrupt hw dch 0x80).1.rqueue = dch.rqueue ∧
      (ISAC_interrupt hw dch 0x80).1.rx_skb = none ∧
      HwOp.writeReg Reg.CMDR 0x80 ∈ (ISAC_interrupt hw dch 0x80).2 ∧
      (∀ b, dch.rx_skb = some b →
        HwOp.kfreeSkb b ∈ (ISAC_interrupt hw dch 0x80).2) ∧
      HwOp.sched Event.D_RCVBUFREADY ∈ (ISAC_interrupt hw dch 0x80).2 ∧
      (ISAC_interrupt hw dch 0x80).1.err_rx =
        (if hw.rsta &&& 0x40 ≠ 0 then dch.err_rx + 1 else dch.err_rx) ∧
      (ISAC_interrupt hw dch 0x80).1.err_crc =
        (if hw.rsta &&& 0x20 = 0 then dch.err_crc + 1 else dch.err_crc)) ∧
    (hw.rsta &&& 0x70 = 0x20 → dch.rx_skb = none → hw.allocRxOk = true →
      (ISAC_interrupt hw dch 0x80).1.rqueue =
        dch.rqueue ++ [readFifoBytes hw (rbclCount hw)] ∧
      (readFifoBytes hw (rbclCount hw)).length = rbclCount hw ∧
      1 ≤ rbclCount hw ∧ rbclCount hw ≤ 32 ∧
      (hw.rbcl &&& 0x1f = 0 → rbclCount hw = 32) ∧
      (ISAC_interrupt hw dch 0x80).1.rx_skb = none ∧
      HwOp.sched Event.D_RCVBUFREADY ∈ (ISAC_interrupt hw dch 0x80).2) := by
  constructor
  · intro h
    rw [interrupt_rme]
    by_cases h40 : hw.rsta &&& 0x40 ≠ 0 <;>
      by_cases h20 : hw.rsta &&& 0x20 = 0 <;>
        cases hrx : dch.rx_skb <;>
          simp [handleRME, dchannel_sched_event, h, h40, h20, hrx]
  · intro h hrx hal
    have hc : hw.rbcl &&& 0x1f ≤ 31 := by
      have h31 : hw.rbcl &&& 0x1f ≤ 0x1f := Nat.and_le_right
      omega
    have hcnt1 : 1 ≤ rbclCount hw := by
      unfold rbclCount
      split <;> omega
    have hcnt32 : rbclCount hw ≤ 32 := by
      unfold rbclCount
      split <;> omega
    have hlt : ¬ MAX_DFRAME_LEN_L1 ≤ 0 + rbclCount hw := by
      unfold MAX_DFRAME_LEN_L1
      omega
    have hlt2 : ¬ MAX_DFRAME_LEN_L1 ≤ rbclCount hw := by
      unfold MAX_DFRAME_LEN_L1
      omega
    have hmain : ISAC_interrupt hw dch 0x80 =
        ({ dch with
            rx_skb := none,
            rqueue := dch.rqueue ++ [readFifoBytes hw (rbclCount hw)],
            events := dch.events.insert Event.D_RCVBUFREADY },
         [HwOp.readReg Reg.RSTA, HwOp.readReg Reg.RBCL,
          HwOp.readFifo (rbclCount hw), HwOp.writeReg Reg.CMDR 0x80,
          HwOp.sched Event.D_RCVBUFREADY]) := by
      rw [interrupt_rme]
      simp [handleRME, isac_empty_fifo, emptyFifoAppend, dchannel_sched_event,
        h, hrx, hal, hlt, hlt2]
    refine ⟨?_, readFifoBytes_length hw _, hcnt1, hcnt32, ?_, ?_, ?_⟩
    · rw [hmain]
    · intro hz
      unfold rbclCount
      simp [hz]
    · rw [hmain]
    · rw [hmain]
      simp

theorem C3_rme_witness :
    ((ISAC_interrupt c3hw c3dch 0x80).1.err_crc =
       (if c3hw.rsta &&& 0x20 = 0 then c3dch.err_crc + 1 else c3dch.err_crc)) ∧
    ((ISAC_interrupt { hw0 with rbcl := 3, fifo := [7, 8, 9] } dch0 0x80).1.rqueue =
       dch0.rqueue ++
         [readFifoBytes { hw0 with rbcl := 3, fifo := [7, 8, 9] }
           (rbclCount { hw0 with rbcl := 3, fifo := [7, 8, 9] })]) :=
  ⟨((C3_rme c3hw c3dch).1 (by decide)).2.2.2.2.2.2,
   ((C3_rme { hw0 with rbcl := 3, fifo := [7, 8, 9] } dch0).2 (by decide) rfl rfl).1⟩

theorem upMsgs_upSend (dch : DCh) (p : UpPrim) (a : UpPara) :
    upMsgs (upSend dch p a) = upSend dch p a := by
  unfold upMsgs upSend
  refine List.filter_eq_self.mpr ?_
  intro x hx
  rw [List.eq_of_mem_replicate hx]

theorem upMsgs_hwbh (dch : DCh) (hmem : Event.D_L1STATECHANGE ∈ dch.events) :
    upMsgs (isac_hwbh dch).2 = upMsgs (isac_new_ph dch) := by
  simp only [isac_hwbh, hmem, if_true]
  split
  · rfl
  · split <;> split <;>
      simp [upMsgs, List.filter_append]

theorem upMsgs_new_ph (dch : DCh) :
    upMsgs (isac_new_ph dch) =
      (match phTable dch.ph_state with
       | some pa => List.replicate dch.upCount (HwOp.upMsg pa.1 pa.2)
       | none => []) := by
  unfold isac_new_ph phTable
  split_ifs <;>
    simp [upMsgs, upSend, ph_command, List.filter_append]

/-- C6: on a configuration/status-change interrupt (status bit 0x04)
whose CIR0 value has the state-changed bit (bit 1) set, the 4-bit code
in bits 2-5 is stored as the current line state and the deferred
`D_L1STATECHANGE` notification is scheduled with no direct upstream
call; the deferred step sends exactly the (primitive, parameter) pair of
the section-4.3 table for the stored code — in particular code 0x3
yields a signal-indication with parameter INFO2 — sends nothing for
codes outside the table, and for reset/error-indication codes first
issues the disable command write (CIX0 strobe) under the hardware-access
lock. -/
theorem C6_line_state (hw : HwIn) (dch : DCh) :
    (hw.cir0 &&& 2 ≠ 0 →
      (ISAC_interrupt hw dch 0x04).1.ph_state = (hw.cir0 >>> 2) &&& 0xf ∧
      HwOp.sched Event.D_L1STATECHANGE ∈ (ISAC_interrupt hw dch 0x04).2 ∧
      sendsUp (ISAC_interrupt hw dch 0x04).2 = false) ∧
    (Event.D_L1STATECHANGE ∈ dch.events →
      upMsgs (isac_hwbh dch).2 =
        (match phTable dch.ph_state with
         | some pa => List.replicate dch.upCount (HwOp.upMsg pa.1 pa.2)
         | none => []) ∧
      (dch.ph_state = 0x3 →
        upMsgs (isac_hwbh dch).2 =
          List.replicate dch.upCount
            (HwOp.upMsg UpPrim.phSignalInd UpPara.info2)) ∧
      (phTable dch.ph_state = none → upMsgs (isac_hwbh dch).2 = [])) ∧
    (dch.ph_state = ISAC_IND_RS ∨ dch.ph_state = ISAC_IND_EI →
      isac_new_ph dch =
        [HwOp.lockHw] ++ ph_command ISAC_CMD_DUI ++ [HwOp.unlockHw]
          ++ upSend dch UpPrim.phControlInd UpPara.hwReset) := by
  refine ⟨?_, ?_, ?_⟩
  · intro h2
    rw [interrupt_cisq]
    by_cases h1 : hw.cir0 &&& 1 ≠ 0 <;>
      simp [handleCISQ, dchannel_sched_event, sendsUp, h2, h1]
  · intro hmem
    have hup := upMsgs_hwbh dch hmem
    have htab := upMsgs_new_ph dch
    refine ⟨hup.trans htab, ?_, ?_⟩
    · intro hz
      rw [hup, htab, hz]
      rfl
    · intro hnone
      rw [hup, htab, hnone]
  · intro h
    unfold isac_new_ph
    rw [if_pos h]

theorem C6_line_state_witness :
    ((ISAC_interrupt { hw0 with cir0 := 0x0e } dch0 0x04).1.ph_state =
       (({ hw0 with cir0 := 0x0e } : HwIn).cir0 >>> 2) &&& 0xf) ∧
    (upMsgs (isac_hwbh { dch0 with
        ph_state := 0x3,
        events := [Event.D_L1STATECHANGE] }).2 =
      List.replicate 1 (HwOp.upMsg UpPrim.phSignalInd UpPara.info2)) :=
  ⟨((C6_line_state { hw0 with cir0 := 0x0e } dch0).1 (by decide)).1,
   ((C6_line_state hw0 { dch0 with
        ph_state := 0x3,
        events := [Event.D_L1STATECHANGE] }).2.1 (by decide)).2.1 rfl⟩

theorem fifoPayload_append (a b : List HwOp) :
    fifoPayload (a ++ b) = fifoPayload a ++ fifoPayload b := by
  induction a with
  | nil => rfl
  | cons x t ih =>
    cases x <;> simp [fifoPayload, ih]

theorem handleXPR_fill (dch : DCh) (h : dch.tx_idx < dch.tx_len) :
    fifoPayload (handleXPR dch).2 =
      (dch.tx_buf.drop dch.tx_idx).take (min (dch.tx_len - dch.tx_idx) 32) ∧
    (handleXPR dch).1.tx_buf = dch.tx_buf ∧
    (handleXPR dch).1.tx_len = dch.tx_len ∧
    (handleXPR dch).1.tx_idx = dch.tx_idx + min (dch.tx_len - dch.tx_idx) 32 ∧
    (handleXPR dch).1.flgTxNext = dch.flgTxNext := by
  have hn : ¬ dch.tx_len ≤ dch.tx_idx := by omega
  by_cases hT : dch.flgDbusyTimer <;> by_cases hL : dch.flgL1Dbusy <;>
    simp [handleXPR, isac_fill_fifo, dchannel_sched_event, fifoPayload,
      fifoPayload_append, hT, hL, h, hn]

theorem handleXPR_nofill (dch : DCh) (h : ¬ dch.tx_idx < dch.tx_len)
    (hN : dch.flgTxNext = false) :
    fifoPayload (handleXPR dch).2 = [] ∧
    (handleXPR dch).1.tx_buf = dch.tx_buf ∧
    (handleXPR dch).1.tx_len = dch.tx_len ∧
    (handleXPR dch).1.tx_idx = dch.tx_idx ∧
    (handleXPR dch).1.flgTxNext = false := by
  by_cases hT : dch.flgDbusyTimer <;> by_cases hL : dch.flgL1Dbusy <;>
    simp [handleXPR, dchannel_sched_event, fifoPayload, fifoPayload_append,
      hT, hL, h, hN]

theorem take_drop_chunk (buf : List Nat) (a L : Nat) (h : a < L) :
    (buf.drop a).take (min (L - a) 32) ++ (buf.take L).drop (a + min (L - a) 32) =
      (buf.take L).drop a := by
  have h1 : ((buf.drop a).drop (min (L - a) 32)).take (L - a - min (L - a) 32) =
      (buf.take L).drop (a + min (L - a) 32) := by
    rw [List.drop_drop, List.drop_take]
    congr 1
    omega
  have h2 : (buf.take L).drop a = (buf.drop a).take (L - a) := by
    rw [List.drop_take]
  rw [← h1, h2, ← List.take_add]
  congr 1
  have := Nat.min_le_left (L - a) 32
  omega

theorem fillRun (hw : HwIn) (fuel : Nat) :
    ∀ dch : DCh, dch.flgTxNext = false → dch.tx_len ≤ dch.tx_buf.length →
      dch.tx_len ≤ dch.tx_idx + 32 * fuel →
      fifoPayload (xprSteps hw dch fuel).2 =
        (dch.tx_buf.take dch.tx_len).drop dch.tx_idx := by
  induction fuel with
  | zero =>
    intro dch hN hlen hfuel
    have hle : (dch.tx_buf.take dch.tx_len).length ≤ dch.tx_idx := by
      simp only [List.length_take]
      omega
    rw [List.drop_eq_nil_of_le hle]
    rfl
  | succ n ih =>
    intro dch hN hlen hfuel
    show fifoPayload ((ISAC_interrupt hw dch 0x10).2 ++
      (xprSteps hw (ISAC_interrupt hw dch 0x10).1 n).2) = _
    rw [fifoPayload_append, interrupt_xpr]
    by_cases h : dch.tx_idx < dch.tx_len
    · obtain ⟨hpay, hbuf, hlen2, hidx, hnext⟩ := handleXPR_fill dch h
      rw [hpay, ih (handleXPR dch).1 (hnext.trans hN)
        (by rw [hlen2, hbuf]; exact hlen) (by rw [hlen2, hidx]; omega),
        hbuf, hlen2, hidx]
      exact take_drop_chunk dch.tx_buf dch.tx_idx dch.tx_len h
    · obtain ⟨hpay, hbuf, hlen2, hidx, hnext⟩ := handleXPR_nofill dch h hN
      rw [hpay, ih (handleXPR dch).1 hnext
        (by rw [hlen2, hbuf]; exact hlen) (by rw [hlen2, hidx]; omega),
        hbuf, hlen2, hidx]
      exact List.nil_append _

theorem interrupt_exi_xdu (hw : HwIn) (dch : DCh) (hx : hw.exir &&& 0x40 ≠ 0)
    (hm : hw.exir &&& 0x04 = 0) :
    (ISAC_interrupt hw dch 0x01).1 = (handleXDU dch).1 ∧
    (ISAC_interrupt hw dch 0x01).2 =
      [HwOp.readReg Reg.EXIR]
        ++ (if hw.exir &&& 0x80 ≠ 0 then [HwOp.logWarn] else [])
        ++ (handleXDU dch).2 := by
  rw [interrupt_exi]
  unfold handleEXI
  by_cases h80 : hw.exir &&& 0x80 = 0 <;>
    simp [hseq, hif, logStep, hx, hm, h80]

theorem handleXDU_busy (dch : DCh) (hb : dch.flgTxBusy = true) :
    (handleXDU dch).1.tx_buf = dch.tx_buf ∧
    (handleXDU dch).1.tx_len = dch.tx_len ∧
    (handleXDU dch).1.tx_idx = min dch.tx_len 32 ∧
    (handleXDU dch).1.flgTxNext = dch.flgTxNext ∧
    (dch.flgDbusyTimer = true → HwOp.delTimer ∈ (handleXDU dch).2) ∧
    sendsUp (handleXDU dch).2 = false ∧
    fifoPayload (handleXDU dch).2 = dch.tx_buf.take (min dch.tx_len 32) := by
  by_cases hT : dch.flgDbusyTimer <;> by_cases hL : dch.flgL1Dbusy <;>
    by_cases h0 : dch.tx_len = 0 <;>
      simp [handleXDU, isac_fill_fifo, dchannel_sched_event, sendsUp,
        fifoPayload, fifoPayload_append, hb, hT, hL, h0, Nat.le_zero]

theorem handleXDU_promote (dch : DCh) (s : List Nat) (hb : dch.flgTxBusy = false)
    (hn : dch.flgTxNext = true) (hs : dch.next_skb = some s) :
    (handleXDU dch).1.tx_buf = s ∧
    (handleXDU dch).1.tx_len = s.length ∧
    (handleXDU dch).1.tx_idx = min s.length 32 ∧
    (handleXDU dch).1.flgTxNext = false ∧
    HwOp.sched Event.D_XMTBUFREADY ∈ (handleXDU dch).2 := by
  by_cases hT : dch.flgDbusyTimer <;> by_cases hL : dch.flgL1Dbusy <;>
    by_cases h0 : s.length = 0 <;>
      simp [handleXDU, txPromote, isac_fill_fifo, dchannel_sched_event,
        hb, hn, hs, hT, hL, h0, Nat.le_zero]

theorem handleXDU_anomaly (dch : DCh) (hb : dch.flgTxBusy = false)
    (hn : dch.flgTxNext = false) :
    (handleXDU dch).1.tx_buf = dch.tx_buf ∧
    (handleXDU dch).1.tx_len = dch.tx_len ∧
    (handleXDU dch).1.tx_idx = dch.tx_idx ∧
    fifoPayload (handleXDU dch).2 = [] ∧
    HwOp.logWarn ∈ (handleXDU dch).2 ∧
    sendsUp (handleXDU dch).2 = false ∧
    HwOp.sched Event.D_XMTBUFREADY ∉ (handleXDU dch).2 := by
  by_cases hT : dch.flgDbusyTimer <;> by_cases hL : dch.flgL1Dbusy <;>
    simp [handleXDU, dchannel_sched_event, sendsUp, fifoPayload,
      fifoPayload_append, hb, hn, hT, hL]

/-- C5: for every extended-status interrupt (status bit 0x01) whose EXIR
value has the transmit-underrun bit 0x40 set (and no monitor event): if
the transmit-busy flag is set, the armed busy timer is cancelled, the
transmit cursor is reset to 0 and `isac_fill_fifo` re-runs on the same
transmit buffer — this interrupt resends bytes `[0, min L 32)`, and with
enough transmit-ready interrupts the full `[0, L)` of the original frame
is resent unchanged — with no upstream message; if the transmit-busy
flag is clear, a queued next frame (if any) is promoted: copied into the
transmit buffer, transmitted from offset 0, with the transmit-confirm
event scheduled; and if none is queued only an anomaly is logged. -/
theorem C5_xdu (hw : HwIn) (dch : DCh) (hx : hw.exir &&& 0x40 ≠ 0)
    (hm : hw.exir &&& 0x04 = 0) :
    (dch.flgTxBusy = true →
      (ISAC_interrupt hw dch 0x01).1.tx_buf = dch.tx_buf ∧
      (ISAC_interrupt hw dch 0x01).1.tx_len = dch.tx_len ∧
      (ISAC_interrupt hw dch 0x01).1.tx_idx = min dch.tx_len 32 ∧
      (dch.flgDbusyTimer = true →
        HwOp.delTimer ∈ (ISAC_interrupt hw dch 0x01).2) ∧
      sendsUp (ISAC_interrupt hw dch 0x01).2 = false ∧
      fifoPayload (ISAC_interrupt hw dch 0x01).2 =
        dch.tx_buf.take (min dch.tx_len 32)) ∧
    (dch.flgTxBusy = true → dch.flgTxNext = false →
      dch.tx_len ≤ dch.tx_buf.length → ∀ fuel, dch.tx_len ≤ 32 + 32 * fuel →
      fifoPayload ((ISAC_interrupt hw dch 0x01).2 ++
          (xprSteps hw (ISAC_interrupt hw dch 0x01).1 fuel).2) =
        dch.tx_buf.take dch.tx_len) ∧
    (dch.flgTxBusy = false → dch.flgTxNext = true →
      ∀ s, dch.next_skb = some s →
      (ISAC_interrupt hw dch 0x01).1.tx_buf = s ∧
      (ISAC_interrupt hw dch 0x01).1.tx_len = s.length ∧
      (ISAC_interrupt hw dch 0x01).1.tx_idx = min s.length 32 ∧
      (ISAC_interrupt hw dch 0x01).1.flgTxNext = false ∧
      HwOp.sched Event.D_XMTBUFREADY ∈ (ISAC_interrupt hw dch 0x01).2) ∧
    (dch.flgTxBusy = false → dch.flgTxNext = false →
      (ISAC_interrupt hw dch 0x01).1.tx_buf = dch.tx_buf ∧
      (ISAC_interrupt hw dch 0x01).1.tx_len = dch.tx_len ∧
      (ISAC_interrupt hw dch 0x01).1.tx_idx = dch.tx_idx ∧
      fifoPayload (ISAC_interrupt hw dch 0x01).2 = [] ∧
      HwOp.logWarn ∈ (ISAC_interrupt hw dch 0x01).2 ∧
      sendsUp (ISAC_interrupt hw dch 0x01).2 = false ∧
      HwOp.sched Event.D_XMTBUFREADY ∉ (ISAC_interrupt hw dch 0x01).2) := by
  obtain ⟨hI1, hI2⟩ := interrupt_exi_xdu hw dch hx hm
  have hIpay : fifoPayload (ISAC_interrupt hw dch 0x01).2 =
      fifoPayload (handleXDU dch).2 := by
    rw [hI2]
    by_cases h80 : hw.exir &&& 0x80 ≠ 0 <;>
      simp [h80, fifoPayload_append, fifoPayload]
  have hIsend : sendsUp (ISAC_interrupt hw dch 0x01).2 =
      sendsUp (handleXDU dch).2 := by
    rw [hI2]
    by_cases h80 : hw.exir &&& 0x80 ≠ 0 <;>
      simp [h80, sendsUp, List.any_append]
  have hImem : ∀ x : HwOp, x ∈ (handleXDU dch).2 →
      x ∈ (ISAC_interrupt hw dch 0x01).2 := by
    intro x hxm
    rw [hI2]
    simp [List.mem_append, hxm]
  have hIsched : ∀ e : Event, HwOp.sched e ∉ (handleXDU dch).2 →
      HwOp.sched e ∉ (ISAC_interrupt hw dch 0x01).2 := by
    intro e hns
    rw [hI2]
    by_cases h80 : hw.exir &&& 0x80 ≠ 0 <;>
      simp [h80, List.mem_append, hns]
  refine ⟨?_, ?_, ?_, ?_⟩
  · intro hb
    obtain ⟨h1, h2, h3, h4, h5, h6, h7⟩ := handleXDU_busy dch hb
    exact ⟨by rw [hI1]; exact h1, by rw [hI1]; exact h2, by rw [hI1]; exact h3,
      fun ht => hImem _ (h5 ht), by rw [hIsend]; exact h6, by rw [hIpay]; exact h7⟩
  · intro hb hN hlen fuel hfuel
    obtain ⟨h1, h2, h3, h4, _, _, h7⟩ := handleXDU_busy dch hb
    rw [fifoPayload_append, hIpay, h7]
    have hrun := fillRun hw fuel (ISAC_interrupt hw dch 0x01).1
      (by rw [hI1, h4]; exact hN)
      (by rw [hI1, h2, h1]; exact hlen)
      (by rw [hI1, h2, h3]
          by_cases h32 : dch.tx_len ≤ 32
          · rw [Nat.min_eq_left h32]
            omega
          · rw [Nat.min_eq_right (by omega)]
            omega)
    rw [hrun, hI1, h1, h2, h3]
    have hc : min dch.tx_len 32 ≤ dch.tx_len := Nat.min_le_left _ _
    have htt : dch.tx_buf.take (min dch.tx_len 32) =
        (dch.tx_buf.take dch.tx_len).take (min dch.tx_len 32) := by
      rw [List.take_take, Nat.min_eq_left hc]
    rw [htt, List.take_append_drop]
  · intro hb hn s hs
    obtain ⟨h1, h2, h3, h4, h5⟩ := handleXDU_promote dch s hb hn hs
    exact ⟨by rw [hI1]; exact h1, by rw [hI1]; exact h2, by rw [hI1]; exact h3,
      by rw [hI1]; exact h4, hImem _ h5⟩
  · intro hb hn
    obtain ⟨h1, h2, h3, h4, h5, h6, h7⟩ := handleXDU_anomaly dch hb hn
    exact ⟨by rw [hI1]; exact h1, by rw [hI1]; exact h2, by rw [hI1]; exact h3,
      by rw [hIpay]; exact h4, hImem _ h5, by rw [hIsend]; exact h6,
      hIsched _ h7⟩

/-- C5 witness state: transmission in flight, 3 of 3 bytes still to
resend after the underrun. -/
def c5s : DCh :=
  { dch0 with flgTxBusy := true, tx_buf := [1, 2, 3], tx_len := 3, tx_idx := 2 }

/-- C5 witness inputs: EXIR reports only a transmit underrun. -/
def c5hw : HwIn := { hw0 with exir := 0x40 }

/-- C5 witness state for the promote path: idle transmitter with a
queued next frame. -/
def c5p : DCh := { dch0 with flgTxNext := true, next_skb := some [4, 5] }

theorem C5_xdu_witness :
    fifoPayload (ISAC_interrupt c5hw c5s 0x01).2 =
      c5s.tx_buf.take (min c5s.tx_len 32) ∧
    fifoPayload ((ISAC_interrupt c5hw c5s 0x01).2 ++
        (xprSteps c5hw (ISAC_interrupt c5hw c5s 0x01).1 0).2) =
      c5s.tx_buf.take c5s.tx_len ∧
    (ISAC_interrupt c5hw c5p 0x01).1.tx_buf = [4, 5] ∧
    HwOp.sched Event.D_XMTBUFREADY ∈ (ISAC_interrupt c5hw c5p 0x01).2 :=
  ⟨((C5_xdu c5hw c5s (by decide) (by decide)).1 rfl).2.2.2.2.2,
   (C5_xdu c5hw c5s (by decide) (by decide)).2.1 rfl rfl (by decide) 0 (by decide),
   ((C5_xdu c5hw c5p (by decide) (by decide)).2.2.1 rfl rfl [4, 5] rfl).1,
   ((C5_xdu c5hw c5p (by decide) (by decide)).2.2.1 rfl rfl [4, 5] rfl).2.2.2.2⟩

theorem bufSeg_append_adj (buf : List Nat) (p q r : Nat) (h1 : p ≤ q) (h2 : q ≤ r) :
    bufSeg buf p (q - p) ++ bufSeg buf q (r - q) = bufSeg buf p (r - p) := by
  unfold bufSeg
  rw [← List.map_append]
  congr 1
  have h := List.range'_append p (q - p) (r - q) 1
  rw [one_mul] at h
  have hq : p + (q - p) = q := by omega
  rw [hq] at h
  rw [h]
  congr 1
  omega

theorem moxBytes_append (a b : List HwOp) :
    moxBytes (a ++ b) = moxBytes a ++ moxBytes b := by
  induction a with
  | nil => rfl
  | cons x t ih =>
    cases x <;> try simp [moxBytes, ih]
    rename_i r v
    cases r <;> simp [moxBytes, ih]

/-- The monitor-transmit invariant relating a state `a`, a successor
state `b` and the trace between them: target length and buffer are
unchanged, the cursor only advances, it never passes a nonzero target
it had not already passed, and the bytes written to MOX0/MOX1 are
exactly the buffer segment the cursor moved over. -/
def MonTxOk (a b : DCh) (tr : List HwOp) : Prop :=
  b.mon_txc = a.mon_txc ∧ b.mon_tx = a.mon_tx ∧ a.mon_txp ≤ b.mon_txp ∧
  (a.mon_txc ≠ 0 → a.mon_txp ≤ a.mon_txc → b.mon_txp ≤ a.mon_txc) ∧
  moxBytes tr = bufSeg (a.mon_tx.getD []) a.mon_txp (b.mon_txp - a.mon_txp)

theorem MonTxOk_refl (a : DCh) : MonTxOk a a [] := by
  refine ⟨rfl, rfl, le_refl _, fun _ h => h, ?_⟩
  simp [bufSeg, moxBytes]

theorem MonTxOk_neutral {d : DCh} {r : DCh × List HwOp}
    (hc : r.1.mon_txc = d.mon_txc) (ht : r.1.mon_tx = d.mon_tx)
    (hp : r.1.mon_txp = d.mon_txp) (hm : moxBytes r.2 = []) :
    MonTxOk d r.1 r.2 := by
  refine ⟨hc, ht, by omega, fun _ h => by omega, ?_⟩
  rw [hm, hp]
  simp [bufSeg]

theorem MonTxOk_trans {a b c : DCh} {t1 t2 : List HwOp}
    (h1 : MonTxOk a b t1) (h2 : MonTxOk b c t2) :
    MonTxOk a c (t1 ++ t2) := by
  obtain ⟨c1, t1e, p1, bd1, m1⟩ := h1
  obtain ⟨c2, t2e, p2, bd2, m2⟩ := h2
  refine ⟨c2.trans c1, t2e.trans t1e, p1.trans p2, ?_, ?_⟩
  · intro hnz hle
    have hb := bd1 hnz hle
    have hcc := bd2 (by rw [c1]; exact hnz) (by rw [c1]; exact hb)
    rw [c1] at hcc
    exact hcc
  · rw [moxBytes_append, m1, m2, t1e]
    exact bufSeg_append_adj _ _ _ _ p1 p2

theorem MonTxOk_carry {a b : DCh} {tr : List HwOp} (h : MonTxOk a b tr)
    (h1 : a.mon_txc ≠ 0) (h2 : a.mon_txp ≤ a.mon_txc) :
    b.mon_txc ≠ 0 ∧ b.mon_txp ≤ b.mon_txc := by
  obtain ⟨c1, _, _, bd, _⟩ := h
  refine ⟨by rw [c1]; exact h1, ?_⟩
  rw [c1]
  exact bd h1 h2

theorem MonTxOk_congr {a b : DCh} {t1 t2 : List HwOp} (h : MonTxOk a b t1)
    (he : t1 = t2) : MonTxOk a b t2 := he ▸ h

theorem MonTxOk_cons {a b : DCh} {tr : List HwOp} (x : HwOp) (h : MonTxOk a b tr)
    (hx : moxBytes [x] = []) : MonTxOk a b (x :: tr) := by
  obtain ⟨c1, c2, c3, c4, c5⟩ := h
  refine ⟨c1, c2, c3, c4, ?_⟩
  have he : moxBytes (x :: tr) = moxBytes ([x] ++ tr) := rfl
  rw [he, moxBytes_append, hx, List.nil_append, c5]

theorem MonTxOk_hseq {a : DCh} {r : DCh × List HwOp} {f : DCh → DCh × List HwOp}
    (hr : MonTxOk a r.1 r.2)
    (hf : ∀ x : DCh, x.mon_txc ≠ 0 → x.mon_txp ≤ x.mon_txc →
      MonTxOk x (f x).1 (f x).2)
    (h1 : a.mon_txc ≠ 0) (h2 : a.mon_txp ≤ a.mon_txc) :
    MonTxOk a (hseq r f).1 (hseq r f).2 := by
  obtain ⟨hc, hp⟩ := MonTxOk_carry hr h1 h2
  exact MonTxOk_trans hr (hf r.1 hc hp)

theorem MonTxOk_hif {c : Prop} [Decidable c] {f : DCh → DCh × List HwOp} {d : DCh}
    (hf : c → MonTxOk d (f d).1 (f d).2) :
    MonTxOk d (hif c f d).1 (hif c f d).2 := by
  unfold hif
  split
  · exact hf (by assumption)
  · exact MonTxOk_refl d

theorem fill_m1 (d : DCh) : (isac_fill_fifo d).1.mon_txc = d.mon_txc := by
  unfold isac_fill_fifo
  split <;> rfl

theorem fill_m2 (d : DCh) : (isac_fill_fifo d).1.mon_tx = d.mon_tx := by
  unfold isac_fill_fifo
  split <;> rfl

theorem fill_m3 (d : DCh) : (isac_fill_fifo d).1.mon_txp = d.mon_txp := by
  unfold isac_fill_fifo
  split <;> rfl

theorem fill_m4 (d : DCh) : moxBytes (isac_fill_fifo d).2 = [] := by
  unfold isac_fill_fifo
  by_cases hT : d.flgDbusyTimer <;> split <;>
    simp [moxBytes, moxBytes_append, hT]

theorem empty_m1 (hw : HwIn) (count : Nat) (d : DCh) :
    (isac_empty_fifo hw d count).1.mon_txc = d.mon_txc := by
  unfold isac_empty_fifo emptyFifoAppend
  cases hrx : d.rx_skb <;> by_cases hal : hw.allocRxOk <;>
    simp [hal] <;> split <;> rfl

theorem empty_m2 (hw : HwIn) (count : Nat) (d : DCh) :
    (isac_empty_fifo hw d count).1.mon_tx = d.mon_tx := by
  unfold isac_empty_fifo emptyFifoAppend
  cases hrx : d.rx_skb <;> by_cases hal : hw.allocRxOk <;>
    simp [hal] <;> split <;> rfl

theorem empty_m3 (hw : HwIn) (count : Nat) (d : DCh) :
    (isac_empty_fifo hw d count).1.mon_txp = d.mon_txp := by
  unfold isac_empty_fifo emptyFifoAppend
  cases hrx : d.rx_skb <;> by_cases hal : hw.allocRxOk <;>
    simp [hal] <;> split <;> rfl

theorem empty_m4 (hw : HwIn) (count : Nat) (d : DCh) :
    moxBytes (isac_empty_fifo hw d count).2 = [] := by
  unfold isac_empty_fifo emptyFifoAppend
  cases hrx : d.rx_skb <;> by_cases hal : hw.allocRxOk <;>
    simp [hal, moxBytes] <;> split <;> simp [moxBytes]

theorem mon_empty (hw : HwIn) (count : Nat) (d : DCh) :
    MonTxOk d (isac_empty_fifo hw d count).1 (isac_empty_fifo hw d count).2 :=
  MonTxOk_neutral (empty_m1 hw count d) (empty_m2 hw count d)
    (empty_m3 hw count d) (empty_m4 hw count d)

theorem mon_log (d : DCh) : MonTxOk d (logStep d).1 (logStep d).2 :=
  MonTxOk_neutral rfl rfl rfl rfl

theorem mon_rme (hw : HwIn) (d : DCh) :
    MonTxOk d (handleRME hw d).1 (handleRME hw d).2 := by
  apply MonTxOk_neutral
  all_goals
    unfold handleRME
    by_cases hcl : hw.rsta &&& 0x70 = 0x20
    · cases hrx2 : (isac_empty_fifo hw d (rbclCount hw)).1.rx_skb <;>
        simp [dchannel_sched_event, hcl, hrx2, moxBytes, moxBytes_append,
          empty_m1, empty_m2, empty_m3, empty_m4]
    · by_cases h40 : hw.rsta &&& 0x40 ≠ 0 <;>
        by_cases h20 : hw.rsta &&& 0x20 = 0 <;>
          cases hrx : d.rx_skb <;>
            simp [dchannel_sched_event, hcl, h40, h20, hrx, moxBytes,
              moxBytes_append]

theorem mon_xpr (d : DCh) : MonTxOk d (handleXPR d).1 (handleXPR d).2 := by
  apply MonTxOk_neutral
  all_goals
    unfold handleXPR txPromote
    by_cases hT : d.flgDbusyTimer <;> by_cases hL : d.flgL1Dbusy <;>
      by_cases hlt : d.tx_idx < d.tx_len <;>
        by_cases hN : d.flgTxNext <;>
          cases hns : d.next_skb <;>
            simp [dchannel_sched_event, moxBytes, moxBytes_append,
              fill_m1, fill_m2, fill_m3, fill_m4, hT, hL, hlt, hN, hns]

theorem mon_cisq (hw : HwIn) (d : DCh) :
    MonTxOk d (handleCISQ hw d).1 (handleCISQ hw d).2 := by
  apply MonTxOk_neutral
  all_goals
    by_cases h2 : hw.cir0 &&& 2 ≠ 0 <;> by_cases hc1 : hw.cir0 % 2 = 1 <;>
      simp [handleCISQ, dchannel_sched_event, moxBytes, moxBytes_append,
        Nat.and_one_is_mod, h2, hc1]

theorem mon_xdu (d : DCh) : MonTxOk d (handleXDU d).1 (handleXDU d).2 := by
  apply MonTxOk_neutral
  all_goals
    unfold handleXDU txPromote
    by_cases hT : d.flgDbusyTimer <;> by_cases hL : d.flgL1Dbusy <;>
      by_cases hb : d.flgTxBusy <;> by_cases hN : d.flgTxNext <;>
        cases hns : d.next_skb <;>
          simp [dchannel_sched_event, moxBytes, moxBytes_append,
            fill_m1, fill_m2, fill_m3, fill_m4, hT, hL, hb, hN, hns]

theorem mon_rx0 (hw : HwIn) (d : DCh) :
    MonTxOk d (monRx0 hw d).1 (monRx0 hw d).2 := by
  apply MonTxOk_neutral
  all_goals
    unfold monRx0 monRx0Append
    cases hrx : d.mon_rx <;> by_cases hal : hw.allocMonOk <;>
      simp [hal, moxBytes] <;> split <;> (try split) <;> simp [moxBytes]

theorem mon_rx1 (hw : HwIn) (d : DCh) :
    MonTxOk d (monRx1 hw d).1 (monRx1 hw d).2 := by
  apply MonTxOk_neutral
  all_goals
    unfold monRx1 monRx1Append
    cases hrx : d.mon_rx <;> by_cases hal : hw.allocMonOk <;>
      simp [hal, moxBytes] <;> split <;> (try split) <;> simp [moxBytes]

theorem mon_er0 (d : DCh) : MonTxOk d (monEr0 d).1 (monEr0 d).2 := by
  apply MonTxOk_neutral
  all_goals simp [monEr0, dchannel_sched_event, moxBytes]

theorem mon_er1 (d : DCh) : MonTxOk d (monEr1 d).1 (monEr1 d).2 := by
  apply MonTxOk_neutral
  all_goals simp [monEr1, dchannel_sched_event, moxBytes]

theorem mon_tx0 (hw : HwIn) (d : DCh) (h1 : d.mon_txc ≠ 0)
    (h2 : d.mon_txp ≤ d.mon_txc) :
    MonTxOk d (monTx0 hw d).1 (monTx0 hw d).2 := by
  by_cases hC : d.mon_txc ≤ d.mon_txp
  · apply MonTxOk_neutral <;>
      (simp [monTx0, dchannel_sched_event, moxBytes, h1, hC] <;>
       (try split) <;> simp [moxBytes, dchannel_sched_event])
  · by_cases hA : d.mon_tx = none
    · apply MonTxOk_neutral <;>
        simp [monTx0, dchannel_sched_event, moxBytes, hA, h1, hC]
    · have hone : d.mon_txp + 1 - d.mon_txp = 1 := by omega
      refine ⟨by simp [monTx0, hA, h1, hC], by simp [monTx0, hA, h1, hC],
        by simp [monTx0, hA, h1, hC], ?_, ?_⟩
      · intro hz hle
        simp [monTx0, hA, h1, hC]
        try omega
      · simp [monTx0, hA, h1, hC, moxBytes, hone, bufSeg, List.range'_succ]

theorem mon_tx1 (hw : HwIn) (d : DCh) (h1 : d.mon_txc ≠ 0)
    (h2 : d.mon_txp ≤ d.mon_txc) :
    MonTxOk d (monTx1 hw d).1 (monTx1 hw d).2 := by
  by_cases hC : d.mon_txc ≤ d.mon_txp
  · apply MonTxOk_neutral <;>
      (simp [monTx1, dchannel_sched_event, moxBytes, h1, hC] <;>
       (try split) <;> simp [moxBytes, dchannel_sched_event])
  · by_cases hA : d.mon_tx = none
    · apply MonTxOk_neutral <;>
        simp [monTx1, dchannel_sched_event, moxBytes, hA, h1, hC]
    · have hone : d.mon_txp + 1 - d.mon_txp = 1 := by omega
      refine ⟨by simp [monTx1, hA, h1, hC], by simp [monTx1, hA, h1, hC],
        by simp [monTx1, hA, h1, hC], ?_, ?_⟩
      · intro hz hle
        simp [monTx1, hA, h1, hC]
        try omega
      · simp [monTx1, hA, h1, hC, moxBytes, hone, bufSeg, List.range'_succ]

theorem mon_mos (hw : HwIn) (d : DCh) (h1 : d.mon_txc ≠ 0)
    (h2 : d.mon_txp ≤ d.mon_txc) :
    MonTxOk d (handleMOS hw d).1 (handleMOS hw d).2 := by
  unfold handleMOS
  refine MonTxOk_cons _ ?_ rfl
  refine MonTxOk_hseq ?_
    (fun x hx1 hx2 => MonTxOk_hif (fun _ => mon_tx1 hw x hx1 hx2)) h1 h2
  refine MonTxOk_hseq ?_
    (fun x hx1 hx2 => MonTxOk_hif (fun _ => mon_tx0 hw x hx1 hx2)) h1 h2
  refine MonTxOk_hseq ?_ (fun x _ _ => MonTxOk_hif (fun _ => mon_er1 x)) h1 h2
  refine MonTxOk_hseq ?_ (fun x _ _ => MonTxOk_hif (fun _ => mon_er0 x)) h1 h2
  refine MonTxOk_hseq ?_ (fun x _ _ => MonTxOk_hif (fun _ => mon_rx1 hw x)) h1 h2
  exact MonTxOk_hif (fun _ => mon_rx0 hw d)

theorem mon_exi (hw : HwIn) (d : DCh) (h1 : d.mon_txc ≠ 0)
    (h2 : d.mon_txp ≤ d.mon_txc) :
    MonTxOk d (handleEXI hw d).1 (handleEXI hw d).2 := by
  unfold handleEXI
  refine MonTxOk_cons _ ?_ rfl
  refine MonTxOk_hseq ?_
    (fun x hx1 hx2 => MonTxOk_hif (fun _ => mon_mos hw x hx1 hx2)) h1 h2
  refine MonTxOk_hseq ?_ (fun x _ _ => MonTxOk_hif (fun _ => mon_xdu x)) h1 h2
  exact MonTxOk_hif (fun _ => mon_log d)

theorem mon_step (hw : HwIn) (val : Nat) (d : DCh) (h1 : d.mon_txc ≠ 0)
    (h2 : d.mon_txp ≤ d.mon_txc) :
    MonTxOk d (ISAC_interrupt hw d val).1 (ISAC_interrupt hw d val).2 := by
  unfold ISAC_interrupt
  refine MonTxOk_hseq ?_
    (fun x hx1 hx2 => MonTxOk_hif (fun _ => mon_exi hw x hx1 hx2)) h1 h2
  refine MonTxOk_hseq ?_ (fun x _ _ => MonTxOk_hif (fun _ => mon_log x)) h1 h2
  refine MonTxOk_hseq ?_ (fun x _ _ => MonTxOk_hif (fun _ => mon_cisq hw x)) h1 h2
  refine MonTxOk_hseq ?_ (fun x _ _ => MonTxOk_hif (fun _ => mon_xpr x)) h1 h2
  refine MonTxOk_hseq ?_ (fun x _ _ => MonTxOk_hif (fun _ => mon_log x)) h1 h2
  refine MonTxOk_hseq ?_
    (fun x _ _ => MonTxOk_hif (fun _ => mon_empty hw 32 x)) h1 h2
  exact MonTxOk_hif (fun _ => mon_rme hw d)

theorem mon_run (inputs : List (HwIn × Nat)) :
    ∀ d : DCh, d.mon_txc ≠ 0 → d.mon_txp ≤ d.mon_txc →
      MonTxOk d (intrRun d inputs).1 (intrRun d inputs).2 := by
  induction inputs with
  | nil =>
    intro d _ _
    exact MonTxOk_refl d
  | cons p rest ih =>
    intro d h1 h2
    show MonTxOk d (intrRun (ISAC_interrupt p.1 d p.2).1 rest).1
      ((ISAC_interrupt p.1 d p.2).2 ++
        (intrRun (ISAC_interrupt p.1 d p.2).1 rest).2)
    have hs := mon_step p.1 p.2 d h1 h2
    obtain ⟨hc, hp⟩ := MonTxOk_carry hs h1 h2
    exact MonTxOk_trans hs (ih _ hc hp)

/-- C9 counterexample state: one byte already written with declared
target length 1 (the transfer is complete), a monitor receive buffer
holding two bytes. -/
def c9dch : DCh :=
  { dch0 with mon_tx := some [55], mon_txc := 1, mon_txp := 1,
              mon_rx := some [9, 9] }

/-- C9 counterexample inputs: monitor status 0x0a, i.e. transmit-ready
for channel 0 together with the "more available" hint bit 0x08. -/
def c9hw : HwIn := { hw0 with exir := 0x04, mosr := 0x0a }

/-- C9 is refuted as stated: after the full target of 1 byte has been
written, a transmit-ready event carrying the more-available hint
schedules the transmit-complete notification without disabling the
transmit direction (no MOCR write, shadow value unchanged), and an
identical second interrupt schedules it again — so the notification is
neither accompanied by the claimed disable nor issued "never a second
time". -/
theorem C9_counterexample :
    c9dch.mon_txc = 1 ∧ c9dch.mon_txp = 1 ∧
    writesMOCR (ISAC_interrupt c9hw c9dch 0x01).2 = false ∧
    (ISAC_interrupt c9hw c9dch 0x01).1.mocr = c9dch.mocr ∧
    countSched Event.D_TX_MON0 (ISAC_interrupt c9hw c9dch 0x01).2 = 1 ∧
    countSched Event.D_TX_MON0
      ((ISAC_interrupt c9hw c9dch 0x01).2 ++
        (ISAC_interrupt c9hw (ISAC_interrupt c9hw c9dch 0x01).1 0x01).2) = 2 := by
  decide

/-- C9 (amended): for each monitor sub-channel and every run of
interrupts: with a declared target length N, the bytes written to the
monitor transmit data registers are exactly the buffer segment the
cursor advances over and the cursor never passes N, so no byte beyond
the N-th is ever written; once N bytes have been written, a
transmit-ready event without the more-available hint disables that
channel's transmit direction via its shadow control value and schedules
the transmit-complete notification once per such event; with the hint
present the notification is scheduled again without any disable, so
repeated events repeat the notification. -/
theorem C9_mon_tx (hw : HwIn) (dch : DCh) (N : Nat)
    (hN : dch.mon_txc = N) (h0 : 0 < N) (hp : dch.mon_txp ≤ N) :
    (∀ inputs : List (HwIn × Nat),
      (intrRun dch inputs).1.mon_txp ≤ N ∧
      moxBytes (intrRun dch inputs).2 =
        bufSeg (dch.mon_tx.getD []) dch.mon_txp
          ((intrRun dch inputs).1.mon_txp - dch.mon_txp)) ∧
    (hw.exir = 0x04 → hw.mosr = 0x02 → N ≤ dch.mon_txp → dch.mon_tx ≠ none →
      (ISAC_interrupt hw dch 0x01).1.mocr = (dch.mocr &&& 0xf0) ||| 0x0a ∧
      countSched Event.D_TX_MON0 (ISAC_interrupt hw dch 0x01).2 = 1 ∧
      moxBytes (ISAC_interrupt hw dch 0x01).2 = []) ∧
    (hw.exir = 0x04 → hw.mosr = 0x0a → N ≤ dch.mon_txp → dch.mon_tx ≠ none →
      ∀ rbuf, dch.mon_rx = some rbuf → rbuf ≠ [] →
        rbuf.length < MAX_MON_FRAME →
      writesMOCR (ISAC_interrupt hw dch 0x01).2 = false ∧
      countSched Event.D_TX_MON0 (ISAC_interrupt hw dch 0x01).2 = 1) ∧
    (hw.exir = 0x04 → hw.mosr = 0x20 → N ≤ dch.mon_txp → dch.mon_tx ≠ none →
      (ISAC_interrupt hw dch 0x01).1.mocr = (dch.mocr &&& 0x0f) ||| 0xa0 ∧
      countSched Event.D_TX_MON1 (ISAC_interrupt hw dch 0x01).2 = 1) := by
  have h1 : dch.mon_txc ≠ 0 := by omega
  have h2 : dch.mon_txp ≤ dch.mon_txc := by omega
  refine ⟨?_, ?_, ?_, ?_⟩
  · intro inputs
    obtain ⟨c1, c2, c3, c4, c5⟩ := mon_run inputs dch h1 h2
    refine ⟨?_, c5⟩
    rw [← hN]
    exact c4 h1 h2
  · intro hex hms hreach hmt
    have hre : dch.mon_txc ≤ dch.mon_txp := by omega
    rw [interrupt_exi]
    simp [handleEXI, handleMOS, hseq, hif, logStep, monTx0,
      dchannel_sched_event, countSched, moxBytes, hex, hms, hmt, h1, hre,
      show (0x04 &&& 0x80 : Nat) = 0 from rfl,
      show (0x04 &&& 0x40 : Nat) = 0 from rfl,
      show (0x04 &&& 0x04 : Nat) = 0x04 from rfl,
      show (0x02 &&& 0x08 : Nat) = 0 from rfl,
      show (0x02 &&& 0x80 : Nat) = 0 from rfl,
      show (0x02 &&& 0x04 : Nat) = 0 from rfl,
      show (0x02 &&& 0x40 : Nat) = 0 from rfl,
      show (0x02 &&& 0x02 : Nat) = 0x02 from rfl,
      show (0x02 &&& 0x20 : Nat) = 0 from rfl]
  · intro hex hms hreach hmt rbuf hrx hrne hrlen
    have hre : dch.mon_txc ≤ dch.mon_txp := by omega
    have hno : ¬ MAX_MON_FRAME ≤ rbuf.length := by omega
    have hl0 : rbuf.length ≠ 0 := by
      simpa [List.length_eq_zero] using hrne
    have hfb : ¬ (rbuf.length + 1 = 1) := by omega
    rw [interrupt_exi]
    simp [handleEXI, handleMOS, hseq, hif, logStep, monTx0, monRx0,
      monRx0Append, dchannel_sched_event, countSched, writesMOCR,
      hex, hms, hmt, h1, hre, hrx, hno, hfb,
      show (0x04 &&& 0x80 : Nat) = 0 from rfl,
      show (0x04 &&& 0x40 : Nat) = 0 from rfl,
      show (0x04 &&& 0x04 : Nat) = 0x04 from rfl,
      show (0x0a &&& 0x08 : Nat) = 0x08 from rfl,
      show (0x0a &&& 0x80 : Nat) = 0 from rfl,
      show (0x0a &&& 0x04 : Nat) = 0 from rfl,
      show (0x0a &&& 0x40 : Nat) = 0 from rfl,
      show (0x0a &&& 0x02 : Nat) = 0x02 from rfl,
      show (0x0a &&& 0x20 : Nat) = 0 from rfl]
  · intro hex hms hreach hmt
    have hre : dch.mon_txc ≤ dch.mon_txp := by omega
    rw [interrupt_exi]
    simp [handleEXI, handleMOS, hseq, hif, logStep, monTx1,
      dchannel_sched_event, countSched, hex, hms, hmt, h1, hre,
      show (0x04 &&& 0x80 : Nat) = 0 from rfl,
      show (0x04 &&& 0x40 : Nat) = 0 from rfl,
      show (0x04 &&& 0x04 : Nat) = 0x04 from rfl,
      show (0x20 &&& 0x08 : Nat) = 0 from rfl,
      show (0x20 &&& 0x80 : Nat) = 0 from rfl,
      show (0x20 &&& 0x04 : Nat) = 0 from rfl,
      show (0x20 &&& 0x40 : Nat) = 0 from rfl,
      show (0x20 &&& 0x02 : Nat) = 0 from rfl,
      show (0x20 &&& 0x20 : Nat) = 0x20 from rfl]

/-- C9 witness inputs: channel-0 transmit-ready without the
more-available hint. -/
def c9bhw : HwIn := { hw0 with exir := 0x04, mosr := 0x02 }

theorem C9_mon_tx_witness :
    ((ISAC_interrupt c9bhw c9dch 0x01).1.mocr =
      (c9dch.mocr &&& 0xf0) ||| 0x0a) ∧
    countSched Event.D_TX_MON0 (ISAC_interrupt c9bhw c9dch 0x01).2 = 1 ∧
    (intrRun c9dch [(c9hw, 0x01)]).1.mon_txp ≤ 1 :=
  ⟨((C9_mon_tx c9bhw c9dch 1 rfl (by decide) (by decide)).2.1 rfl rfl
      (by decide) (by decide)).1,
   ((C9_mon_tx c9bhw c9dch 1 rfl (by decide) (by decide)).2.1 rfl rfl
      (by decide) (by decide)).2.1,
   ((C9_mon_tx c9bhw c9dch 1 rfl (by decide) (by decide)).1 [(c9hw, 0x01)]).1⟩

/-- C10 counterexample state: the shared monitor receive buffer already
holds one byte, so the next received byte is not the first of the
buffer. -/
def c10dch : DCh := { dch0 with mon_rx := some [7] }

/-- C10 counterexample inputs: a monitor channel-1 receive byte. -/
def c10hw : HwIn := { hw0 with exir := 0x04, mosr := 0x80, mor1 := 0x33 }

/-- C10 is refuted as stated: on channel 1 the second received byte is
appended and the ready sub-bit 0x40 is written to MOCR again
(0xaa ||| 0x40 = 0xea), although the claim says the ready enable is
issued only on the first byte of a buffer. -/
theorem C10_counterexample :
    c10dch.mon_rx = some [7] ∧
    (ISAC_interrupt c10hw c10dch 0x01).1.mon_rx = some [7, 0x33] ∧
    HwOp.writeReg Reg.MOCR 0xea ∈ (ISAC_interrupt c10hw c10dch 0x01).2 := by
  decide

/-- C10 (amended): on the channel-0 receive path, the auxiliary ready
sub-bit 0x04 is enabled in the shadow control value and written to MOCR
exactly on the first byte of a buffer, and appending a later byte issues
no MOCR write; on the channel-1 receive path the ready sub-bit 0x40 is
enabled and written on every appended byte, first or not. -/
theorem C10_mon_ready (hw : HwIn) (dch : DCh) (rbuf : List Nat)
    (hex : hw.exir = 0x04) :
    (hw.mosr = 0x08 → dch.mon_rx = some [] →
      (ISAC_interrupt hw dch 0x01).1.mon_rx = some [hw.mor0] ∧
      (ISAC_interrupt hw dch 0x01).1.mocr = dch.mocr ||| 0x04 ∧
      HwOp.writeReg Reg.MOCR (dch.mocr ||| 0x04) ∈
        (ISAC_interrupt hw dch 0x01).2) ∧
    (hw.mosr = 0x08 → dch.mon_rx = none → hw.allocMonOk = true →
      (ISAC_interrupt hw dch 0x01).1.mon_rx = some [hw.mor0] ∧
      (ISAC_interrupt hw dch 0x01).1.mocr = dch.mocr ||| 0x04) ∧
    (hw.mosr = 0x08 → dch.mon_rx = some rbuf → rbuf ≠ [] →
      rbuf.length < MAX_MON_FRAME →
      (ISAC_interrupt hw dch 0x01).1.mon_rx = some (rbuf ++ [hw.mor0]) ∧
      writesMOCR (ISAC_interrupt hw dch 0x01).2 = false) ∧
    (hw.mosr = 0x80 → dch.mon_rx = some rbuf → rbuf.length < MAX_MON_FRAME →
      (ISAC_interrupt hw dch 0x01).1.mon_rx = some (rbuf ++ [hw.mor1]) ∧
      (ISAC_interrupt hw dch 0x01).1.mocr = dch.mocr ||| 0x40 ∧
      HwOp.writeReg Reg.MOCR (dch.mocr ||| 0x40) ∈
        (ISAC_interrupt hw dch 0x01).2) := by
  refine ⟨?_, ?_, ?_, ?_⟩
  · intro hms hrx
    rw [interrupt_exi]
    simp [handleEXI, handleMOS, hseq, hif, logStep, monRx0, monRx0Append,
      MAX_MON_FRAME, hex, hms, hrx,
      show (0x04 &&& 0x80 : Nat) = 0 from rfl,
      show (0x04 &&& 0x40 : Nat) = 0 from rfl,
      show (0x04 &&& 0x04 : Nat) = 0x04 from rfl,
      show (0x08 &&& 0x08 : Nat) = 0x08 from rfl,
      show (0x08 &&& 0x80 : Nat) = 0 from rfl,
      show (0x08 &&& 0x04 : Nat) = 0 from rfl,
      show (0x08 &&& 0x40 : Nat) = 0 from rfl,
      show (0x08 &&& 0x02 : Nat) = 0 from rfl,
      show (0x08 &&& 0x20 : Nat) = 0 from rfl]
  · intro hms hrx hal
    rw [interrupt_exi]
    simp [handleEXI, handleMOS, hseq, hif, logStep, monRx0, monRx0Append,
      MAX_MON_FRAME, hex, hms, hrx, hal,
      show (0x04 &&& 0x80 : Nat) = 0 from rfl,
      show (0x04 &&& 0x40 : Nat) = 0 from rfl,
      show (0x04 &&& 0x04 : Nat) = 0x04 from rfl,
      show (0x08 &&& 0x08 : Nat) = 0x08 from rfl,
      show (0x08 &&& 0x80 : Nat) = 0 from rfl,
      show (0x08 &&& 0x04 : Nat) = 0 from rfl,
      show (0x08 &&& 0x40 : Nat) = 0 from rfl,
      show (0x08 &&& 0x02 : Nat) = 0 from rfl,
      show (0x08 &&& 0x20 : Nat) = 0 from rfl]
  · intro hms hrx hrne hrlen
    have hno : ¬ MAX_MON_FRAME ≤ rbuf.length := by omega
    have hl0 : rbuf.length ≠ 0 := by
      simpa [List.length_eq_zero] using hrne
    have hfb : ¬ (rbuf.length + 1 = 1) := by omega
    rw [interrupt_exi]
    simp [handleEXI, handleMOS, hseq, hif, logStep, monRx0, monRx0Append,
      writesMOCR, hex, hms, hrx, hno, hfb,
      show (0x04 &&& 0x80 : Nat) = 0 from rfl,
      show (0x04 &&& 0x40 : Nat) = 0 from rfl,
      show (0x04 &&& 0x04 : Nat) = 0x04 from rfl,
      show (0x08 &&& 0x08 : Nat) = 0x08 from rfl,
      show (0x08 &&& 0x80 : Nat) = 0 from rfl,
      show (0x08 &&& 0x04 : Nat) = 0 from rfl,
      show (0x08 &&& 0x40 : Nat) = 0 from rfl,
      show (0x08 &&& 0x02 : Nat) = 0 from rfl,
      show (0x08 &&& 0x20 : Nat) = 0 from rfl]
  · intro hms hrx hrlen
    have hno : ¬ MAX_MON_FRAME ≤ rbuf.length := by omega
    rw [interrupt_exi]
    simp [handleEXI, handleMOS, hseq, hif, logStep, monRx1, monRx1Append,
      hex, hms, hrx, hno,
      show (0x04 &&& 0x80 : Nat) = 0 from rfl,
      show (0x04 &&& 0x40 : Nat) = 0 from rfl,
      show (0x04 &&& 0x04 : Nat) = 0x04 from rfl,
      show (0x80 &&& 0x08 : Nat) = 0 from rfl,
      show (0x80 &&& 0x80 : Nat) = 0x80 from rfl,
      show (0x80 &&& 0x04 : Nat) = 0 from rfl,
      show (0x80 &&& 0x40 : Nat) = 0 from rfl,
      show (0x80 &&& 0x02 : Nat) = 0 from rfl,
      show (0x80 &&& 0x20 : Nat) = 0 from rfl]

theorem C10_mon_ready_witness :
    ((ISAC_interrupt { hw0 with exir := 0x04, mosr := 0x08, mor0 := 9 }
        { dch0 with mon_rx := some [] } 0x01).1.mocr = dch0.mocr ||| 0x04) ∧
    writesMOCR (ISAC_interrupt { hw0 with exir := 0x04, mosr := 0x08 }
        { dch0 with mon_rx := some [7] } 0x01).2 = false ∧
    ((ISAC_interrupt c10hw c10dch 0x01).1.mocr = c10dch.mocr ||| 0x40) :=
  ⟨((C10_mon_ready { hw0 with exir := 0x04, mosr := 0x08, mor0 := 9 }
      { dch0 with mon_rx := some [] } [] rfl).1 rfl rfl).2.1,
   ((C10_mon_ready { hw0 with exir := 0x04, mosr := 0x08 }
      { dch0 with mon_rx := some [7] } [7] rfl).2.2.1 rfl rfl (by decide)
      (by decide)).2,
   ((C10_mon_ready c10hw c10dch [7] rfl).2.2.2 rfl rfl (by decide)).2.1⟩

end MISDNIsac
